import Mathlib

/-!
Verification of the Finance_PPT_Maker pipeline against its specification.

This file gives a shallow embedding, in Lean 4, of the parts of the
repository that the specification talks about:

* `src/services/market_data_service.py` — topic parsing (`_parse_topic`),
  index analysis with retries (`_analyze_index`), the randomized fallback
  synthesizer (`_get_complete_fallback_index_analysis`), and the dispatching
  wrapper (`get_comprehensive_analysis`);
* `src/services/content_generator.py` — slide-content assembly
  (`generate_presentation_content`, `_get_fallback_content`,
  `_enhance_slide_with_real_data`);
* `src/services/ppt_generator.py` — deck construction
  (`create_presentation` and the per-slide builders).

Loosely-typed Python dictionaries are modelled by the JSON-like type `Val`;
Python's global random generator is modelled by a stream `g : ℕ → ℚ` of raw
draws in `[0,1)` consumed left to right (CPython's `random.uniform a b` is
`a + (b-a)*random()`); machine floats are modelled by `ℚ`; network and
external-library effects are parameters (oracle environments), and fallible
code returns `Except PyErr`.
-/

/-! ### Python-level primitives -/

/-- Python exception classes that the embedded code can raise. -/
inductive PyErr where
  | attributeError
  | keyError
  | typeError
  deriving DecidableEq, Repr

/-- `needle in hay` for Python strings: substring containment
(the empty string is contained in every string). -/
def pyIn (needle hay : String) : Bool :=
  (hay.toList.tails).any (fun t => needle.toList.isPrefixOf t)

/-- Python `str.lower()` (character-wise; the topics and vocabularies here
are ASCII). -/
def pyLower (s : String) : String := String.mk (s.toList.map Char.toLower)

/-- Python `str.upper()`. -/
def pyUpper (s : String) : String := String.mk (s.toList.map Char.toUpper)

/-- Replace every (non-overlapping, leftmost-first) occurrence of `pat` by
`rep`, on character lists; `fuel` bounds the recursion and is instantiated
with the input length. -/
def replaceListAux (pat rep : List Char) : ℕ → List Char → List Char
  | 0, cs => cs
  | _ + 1, [] => []
  | fuel + 1, c :: rest =>
      if pat.isPrefixOf (c :: rest) && !pat.isEmpty then
        rep ++ replaceListAux pat rep fuel ((c :: rest).drop pat.length)
      else c :: replaceListAux pat rep fuel rest

/-- Python `str.replace(pat, rep)` (for the non-empty patterns used in the
source). -/
def pyReplace (s pat rep : String) : String :=
  String.mk (replaceListAux pat.toList rep.toList s.toList.length s.toList)

/-- `any(k in hay for k in kws)`. -/
def pyAnyIn (kws : List String) (hay : String) : Bool :=
  kws.any (fun k => pyIn k hay)

/-- CPython `random.uniform a b = a + (b-a) * random()` where `random()`
returns the raw draw `u ∈ [0,1)`. -/
def pyUniform (u a b : ℚ) : ℚ := a + (b - a) * u

/-- CPython `random.randint a b`: a uniform integer in `[a, b]`; with the raw
draw `u ∈ [0,1)` this is `a + ⌊(b - a + 1) * u⌋`. -/
def pyRandint (u : ℚ) (a b : ℤ) : ℤ := a + ⌊((b : ℚ) - (a : ℚ) + 1) * u⌋

/-- Python `round(x, 2)`: round to two decimal places.  (Python uses
banker's rounding at exact ties; ties are measure-zero for the uniform
draws handled here and no claim depends on the tie direction, so the
nearest-integer `round` of Mathlib is used.) -/
def pyRound2 (x : ℚ) : ℚ := ((round (x * 100) : ℤ) : ℚ) / 100

/-- A stream of raw random draws, each in `[0,1)`. -/
def ValidDraws (g : ℕ → ℚ) : Prop := ∀ n, 0 ≤ g n ∧ g n < 1

/-- Drop the first `k` draws of a stream (they have been consumed). -/
def shiftDraws (g : ℕ → ℚ) (k : ℕ) : ℕ → ℚ := fun n => g (n + k)

/-! ### A model of loosely-typed Python values -/

/-- JSON-like Python values: strings, numbers (as `ℚ`), booleans, lists and
string-keyed dictionaries (association lists in literal order; the dict
literals embedded here have no duplicate keys). -/
inductive Val where
  | s (str : String)
  | q (x : ℚ)
  | b (bv : Bool)
  | pynone
  | vlist (xs : List Val)
  | vdict (fields : List (String × Val))
  deriving Repr

/-- Dictionary key lookup (`d[k]` / `d.get(k)` on the dicts built here). -/
def Val.lookup : Val → String → Option Val
  | .vdict fields, k => fields.lookup k
  | _, _ => none

/-- `k in d` for a dictionary value. -/
def Val.hasKey (v : Val) (k : String) : Bool := (v.lookup k).isSome

/-- Python truthiness for the values that get tested in the embedded code
(`{}` and `""` and `0` are falsy). -/
def Val.truthy : Val → Bool
  | .s str => !(str == "")
  | .q x => !(x == 0)
  | .b bv => bv
  | .pynone => false
  | .vlist xs => !xs.isEmpty
  | .vdict fields => !fields.isEmpty

/-- `str(x)` for a rational number standing in for a Python float.  The exact
decimal rendering of CPython floats is not reproduced; no claim depends on
the rendered digits. -/
def qStr (x : ℚ) : String := toString x

/-! ### `MarketDataService` fixed vocabularies
(`src/services/market_data_service.py`, `__init__`) -/

/-- `self.market_symbols` (insertion order preserved). -/
def market_symbols : List (String × String) :=
  [("nifty_50", "^NSEI"), ("nifty_bank", "^NSEBANK"), ("sensex", "^BSESN"),
   ("nifty_it", "^CNXIT"), ("nifty_pharma", "^CNXPHARMA"),
   ("nifty_auto", "^CNXAUTO"), ("nifty_fmcg", "^CNXFMCG"),
   ("nifty_metal", "^CNXMETAL"), ("nifty_realty", "^CNXREALTY"),
   ("nifty_energy", "^CNXENERGY"),
   ("sp_500", "^GSPC"), ("nasdaq", "^IXIC"), ("dow_jones", "^DJI"),
   ("ftse_100", "^FTSE"), ("dax", "^GDAXI"), ("nikkei", "^N225"),
   ("hang_seng", "^HSI"), ("shanghai", "000001.SS"), ("asx_200", "^AXJO"),
   ("tsx", "^GSPTSE"),
   ("gold", "GC=F"), ("silver", "SI=F"), ("crude_oil", "CL=F"),
   ("natural_gas", "NG=F"), ("copper", "HG=F"),
   ("usd_inr", "USDINR=X"), ("eur_usd", "EURUSD=X"), ("gbp_usd", "GBPUSD=X"),
   ("jpy_usd", "JPYUSD=X"),
   ("bitcoin", "BTC-USD"), ("ethereum", "ETH-USD"),
   ("binance_coin", "BNB-USD")]

/-- `self.finance_keywords`. -/
def finance_keywords : List String :=
  ["financial", "stock", "market", "analysis", "investment", "budget",
   "revenue", "profit", "cash flow", "balance sheet", "nifty", "sensex",
   "sp500", "nasdaq", "gold", "oil", "sector", "banking", "technology",
   "pharma", "esg", "ai investing", "q1", "q2", "q3", "q4", "earnings",
   "valuation", "risk", "trend", "forecast"]

/-- The extra keywords appended inside `_parse_topic`. -/
def extra_finance_keywords : List String :=
  ["quarterly", "q1", "q2", "q3", "q4", "earnings", "valuation", "dividend",
   "portfolio", "asset", "bond", "etf", "mutual fund", "ipo", "merger",
   "acquisition", "esg", "sustainable", "crypto", "blockchain", "fintech"]

/-- `expanded_finance_keywords = self.finance_keywords + [...]`. -/
def expanded_finance_keywords : List String :=
  finance_keywords ++ extra_finance_keywords

/-- `self.stock_databases`: market → category → ticker symbols. -/
def stock_databases : List (String × List (String × List String)) :=
  [("indian_stocks",
    [("large_cap",
      ["RELIANCE.NS", "TCS.NS", "HDFCBANK.NS", "INFY.NS", "HINDUNILVR.NS",
       "ICICIBANK.NS", "KOTAKBANK.NS", "BHARTIARTL.NS", "ITC.NS", "SBIN.NS",
       "BAJFINANCE.NS", "ASIANPAINT.NS", "MARUTI.NS", "HCLTECH.NS",
       "AXISBANK.NS", "LT.NS", "DMART.NS", "SUNPHARMA.NS", "TITAN.NS",
       "ULTRACEMCO.NS"]),
     ("banking",
      ["HDFCBANK.NS", "ICICIBANK.NS", "KOTAKBANK.NS", "SBIN.NS",
       "AXISBANK.NS", "INDUSINDBK.NS"]),
     ("technology",
      ["TCS.NS", "INFY.NS", "HCLTECH.NS", "WIPRO.NS", "TECHM.NS", "LTIM.NS"]),
     ("pharma",
      ["SUNPHARMA.NS", "CIPLA.NS", "DRREDDY.NS", "DIVISLAB.NS",
       "APOLLOHOSP.NS"]),
     ("auto",
      ["MARUTI.NS", "TATAMOTORS.NS", "EICHERMOT.NS", "HEROMOTOCO.NS",
       "BAJAJ-AUTO.NS"]),
     ("fmcg",
      ["HINDUNILVR.NS", "ITC.NS", "NESTLEIND.NS", "BRITANNIA.NS",
       "TATACONSUM.NS"])]),
   ("us_stocks",
    [("mega_cap",
      ["AAPL", "MSFT", "GOOGL", "AMZN", "NVDA", "TSLA", "META", "BRK-B"]),
     ("technology",
      ["AAPL", "MSFT", "GOOGL", "NVDA", "META", "NFLX", "ADBE", "CRM",
       "ORCL", "IBM"]),
     ("finance",
      ["JPM", "BAC", "WFC", "GS", "MS", "C", "AXP", "BLK", "SCHW"]),
     ("healthcare",
      ["JNJ", "PFE", "UNH", "ABBV", "MRK", "TMO", "ABT", "LLY"]),
     ("consumer",
      ["AMZN", "TSLA", "HD", "MCD", "NKE", "SBUX", "TGT", "WMT"])]),
   ("global_stocks",
    [("european",
      ["ASML", "SAP", "LVMH.PA", "NVO", "NESN.SW", "ROG.SW", "MC.PA"]),
     ("asian",
      ["TSM", "BABA", "TCEHY", "005930.KS", "6758.T", "7203.T"])])]

/-- `self.sector_themes`. -/
def sector_themes : List (String × List String) :=
  [("esg_investing", ["renewable energy", "sustainable", "green", "clean"]),
   ("artificial_intelligence",
    ["ai", "machine learning", "automation", "robotics"]),
   ("fintech",
    ["digital payments", "blockchain", "cryptocurrency", "neobank"]),
   ("healthcare_innovation",
    ["biotech", "pharmaceuticals", "medical devices", "telemedicine"]),
   ("renewable_energy",
    ["solar", "wind", "electric vehicle", "battery", "clean energy"]),
   ("cybersecurity", ["security", "cyber", "data protection", "privacy"]),
   ("cloud_computing", ["cloud", "saas", "software", "data center"]),
   ("e_commerce",
    ["online retail", "marketplace", "digital commerce", "logistics"])]

/-- The `sector_keywords` local dict of `_parse_topic`. -/
def sector_keywords : List (String × List String) :=
  [("banking", ["bank", "financial services", "finance", "banking sector"]),
   ("technology",
    ["tech", "it", "software", "ai", "artificial intelligence",
     "tech sector"]),
   ("pharma", ["pharma", "healthcare", "medical", "biotech", "pharma sector"]),
   ("auto", ["auto", "automotive", "car", "vehicle", "auto sector"]),
   ("energy",
    ["energy", "oil", "gas", "renewable", "solar", "wind", "energy sector"]),
   ("fmcg", ["fmcg", "consumer goods", "retail", "consumer", "fmcg sector"]),
   ("metals", ["metal", "steel", "mining", "commodity", "metals sector"]),
   ("realty", ["real estate", "realty", "property", "housing",
     "realty sector"])]

/-- The `stock_indicators` list of `_parse_topic`. -/
def stock_indicators : List String :=
  ["stock", "company", "equity", "share", "investment"]

/-- The `commodity_keywords` list of `_parse_topic`. -/
def commodity_keywords : List String :=
  ["gold", "silver", "oil", "crude", "copper", "natural gas", "commodity"]

/-! ### The years regular expression
`re.search(r'(?:last|over|past)\s+(\d+)\s+(year|years?)(?:\s|$)', topic_lower)`
(`_parse_topic`, line 155). -/

/-- Match one-or-more characters satisfying `p` at the front, returning the
consumed run together with the rest. -/
def takeWhile1 (p : Char → Bool) (cs : List Char) :
    Option (List Char × List Char) :=
  let t := cs.takeWhile p
  if t.isEmpty then none else some (t, cs.drop t.length)

/-- Match a literal at the front of the input, returning the rest. -/
def matchLit (lit : String) (cs : List Char) : Option (List Char) :=
  if lit.toList.isPrefixOf cs then some (cs.drop lit.toList.length) else none

/-- `int(...)` of a run of decimal digit characters. -/
def digitsToNat (ds : List Char) : ℕ :=
  ds.foldl (fun a c => a * 10 + (c.toNat - '0'.toNat)) 0

/-- `(?:\s|$)`: the remaining input starts with whitespace or is empty. -/
def wsOrEnd : List Char → Bool
  | [] => true
  | c :: _ => c.isWhitespace

/-- Try the years pattern anchored at the current position:
`(?:last|over|past)\s+(\d+)\s+(year|years?)(?:\s|$)`, returning the captured
number.  The trailing alternation accepts `year` or `years` followed by
whitespace or end of string. -/
def matchYearsAt (cs : List Char) : Option ℕ :=
  ((matchLit "last" cs).orElse fun _ =>
     (matchLit "over" cs).orElse fun _ => matchLit "past" cs).bind fun r1 =>
  (takeWhile1 Char.isWhitespace r1).bind fun pr2 =>
  (takeWhile1 Char.isDigit pr2.2).bind fun pr3 =>
  (takeWhile1 Char.isWhitespace pr3.2).bind fun pr4 =>
  match matchLit "years" pr4.2 with
  | some r5 => if wsOrEnd r5 then some (digitsToNat pr3.1) else
      match matchLit "year" pr4.2 with
      | some r5' => if wsOrEnd r5' then some (digitsToNat pr3.1) else none
      | none => none
  | none =>
      match matchLit "year" pr4.2 with
      | some r5' => if wsOrEnd r5' then some (digitsToNat pr3.1) else none
      | none => none

/-- `re.search`: scan start positions left to right and return the first
match of the years pattern. -/
def searchYears : List Char → Option ℕ
  | [] => matchYearsAt []
  | c :: rest => (matchYearsAt (c :: rest)).orElse fun _ => searchYears rest

/-- The years-lookback count computed by `_parse_topic` (lines 154-157):
regex capture if the pattern matches, else the default `3`, then
`years = min(years, 10)`. -/
def parsedYears (topicLower : String) : ℕ :=
  min ((searchYears topicLower.toList).getD 3) 10

/-! ### `_parse_topic` (`market_data_service.py`, lines 141-205) -/

/-- Guard of the finance-only validation (line 151):
`any(keyword in topic_lower for keyword in expanded_finance_keywords)`. -/
def financeValid (topicLower : String) : Bool :=
  pyAnyIn expanded_finance_keywords topicLower

/-- The index scan (lines 160-162): first `market_symbols` entry whose key —
with underscores replaced by spaces, or verbatim — occurs in the topic. -/
def findIndexMatch (topicLower : String) : Option (String × String) :=
  market_symbols.find? fun kv =>
    pyIn (pyReplace kv.1 "_" " ") topicLower || pyIn kv.1 topicLower

/-- The sector scan (lines 176-178): first sector one of whose keywords
occurs in the topic. -/
def findSectorMatch (topicLower : String) : Option (String × List String) :=
  sector_keywords.find? fun sk => pyAnyIn sk.2 topicLower

/-- The inner stock scan (lines 184-189): first database symbol whose
name (with `.NS` stripped and `-` replaced by spaces, lower-cased) or
lower-cased ticker occurs in the topic; returns `(symbol, market)`. -/
def findStockMatch (topicLower : String) : Option (String × String) :=
  stock_databases.findSome? fun mkt =>
    mkt.2.findSome? fun cat =>
      (cat.2.find? fun sym =>
        pyIn (pyLower (pyReplace (pyReplace sym ".NS" "") "-" " ")) topicLower ||
        pyIn (pyLower sym) topicLower).map fun sym => (sym, mkt.1)

/-- Guard of the stock block (line 182). -/
def stockIndicatorHit (topicLower : String) : Bool :=
  pyAnyIn stock_indicators topicLower

/-- Guard of the commodity block (line 193). -/
def commodityKeywordHit (topicLower : String) : Bool :=
  pyAnyIn commodity_keywords topicLower

/-- The inner commodity scan (lines 194-197): among the five commodity
entries of `market_symbols`, the first whose key with underscores replaced
by spaces occurs in the topic. -/
def findCommodityMatch (topicLower : String) : Option (String × String) :=
  market_symbols.findSome? fun kv =>
    if (["gold", "silver", "crude_oil", "copper", "natural_gas"].contains
          kv.1) &&
        pyIn (pyReplace kv.1 "_" " ") topicLower
    then some kv else none

/-- The theme scan (lines 200-202): first theme one of whose keywords occurs
in the topic. -/
def findThemeMatch (topicLower : String) : Option (String × List String) :=
  sector_themes.find? fun tk => pyAnyIn tk.2 topicLower

/-- `_parse_topic`: classify a free-text topic.  Mirrors the control flow of
lines 141-205: finance validation, years extraction, then the index, sector,
stock, commodity, theme checks in order, defaulting to `general`. -/
def parseTopic (topic : String) : Val :=
  let topicLower := pyLower topic
  if !financeValid topicLower then
    .vdict [("type", .s "invalid"),
            ("reason", .s "Topic must be finance-related (e.g., stocks, markets, investments, financial analysis)")]
  else
    let years : ℚ := (parsedYears topicLower : ℚ)
    match findIndexMatch topicLower with
    | some kv =>
        .vdict [("type", .s "index"), ("symbol", .s kv.2), ("name", .s kv.1),
                ("years", .q years)]
    | none =>
    match findSectorMatch topicLower with
    | some sk =>
        .vdict [("type", .s "sector"), ("sector", .s sk.1),
                ("keywords", .vlist (sk.2.map .s)), ("years", .q years)]
    | none =>
    match (if stockIndicatorHit topicLower then findStockMatch topicLower
           else none) with
    | some sm =>
        .vdict [("type", .s "stock"), ("symbol", .s sm.1),
                ("market", .s sm.2), ("years", .q years)]
    | none =>
    match (if commodityKeywordHit topicLower then
             findCommodityMatch topicLower
           else none) with
    | some kv =>
        .vdict [("type", .s "commodity"), ("symbol", .s kv.2),
                ("name", .s kv.1), ("years", .q years)]
    | none =>
    match findThemeMatch topicLower with
    | some tk =>
        .vdict [("type", .s "theme"), ("theme", .s tk.1),
                ("keywords", .vlist (tk.2.map .s)), ("years", .q years)]
    | none =>
        .vdict [("type", .s "general"), ("topic", .s topic),
                ("years", .q years)]

/-- The category that the priority chain of `_parse_topic` selects once the
finance validation has passed: the tag of the first block whose full guard
holds, in the fixed order index → sector → stock → commodity → theme,
defaulting to `general`. -/
def firstGuardTag (topicLower : String) : String :=
  if (findIndexMatch topicLower).isSome then "index"
  else if (findSectorMatch topicLower).isSome then "sector"
  else if stockIndicatorHit topicLower &&
          (findStockMatch topicLower).isSome then "stock"
  else if commodityKeywordHit topicLower &&
          (findCommodityMatch topicLower).isSome then "commodity"
  else if (findThemeMatch topicLower).isSome then "theme"
  else "general"

/-! ### `_get_complete_fallback_index_analysis`
(`market_data_service.py`, lines 946-1046).  The function makes a fixed
sequence of calls to the global random generator; the `n`-th call consumes
raw draw `g n`.  Each local of the Python function is a named definition
below, with its draw index. -/

/-- `current_price = round(random.uniform(1000, 50000), 2)` (draw 0). -/
def fbCurrentPrice (g : ℕ → ℚ) : ℚ := pyRound2 (pyUniform (g 0) 1000 50000)

/-- `daily_change = round(random.uniform(-2.5, 2.5), 2)` (draw 1). -/
def fbDailyChange (g : ℕ → ℚ) : ℚ := pyRound2 (pyUniform (g 1) (-2.5) 2.5)

/-- `volume = random.randint(100000, 10000000)` (draw 2). -/
def fbVolume (g : ℕ → ℚ) : ℤ := pyRandint (g 2) 100000 10000000

/-- `market_cap = random.randint(1000000000, 1000000000000)` (draw 3). -/
def fbMarketCap (g : ℕ → ℚ) : ℤ := pyRandint (g 3) 1000000000 1000000000000

/-- `week_high = round(current_price * random.uniform(1.05, 1.25), 2)`
(draw 4). -/
def fbWeekHigh (g : ℕ → ℚ) : ℚ :=
  pyRound2 (fbCurrentPrice g * pyUniform (g 4) 1.05 1.25)

/-- `week_low = round(current_price * random.uniform(0.75, 0.95), 2)`
(draw 5). -/
def fbWeekLow (g : ℕ → ℚ) : ℚ :=
  pyRound2 (fbCurrentPrice g * pyUniform (g 5) 0.75 0.95)

/-- `base_return = random.uniform(-0.1, 0.25)` (draw 6). -/
def fbBaseReturn (g : ℕ → ℚ) : ℚ := pyUniform (g 6) (-0.1) 0.25

/-- The `performance` dict (draws 7-13; `1_year` reuses `base_return`). -/
def fbPerformanceFields (g : ℕ → ℚ) : List (String × Val) :=
  [("1_month", .q (pyRound2 (pyUniform (g 7) (-5) 8))),
   ("3_months", .q (pyRound2 (pyUniform (g 8) (-8) 12))),
   ("6_months", .q (pyRound2 (pyUniform (g 9) (-10) 15))),
   ("1_year", .q (pyRound2 (fbBaseReturn g * 100))),
   ("3_years",
    .q (pyRound2 (fbBaseReturn g * 100 * 3 + pyUniform (g 10) (-10) 10))),
   ("yearly_breakdown", .vlist
     [.vdict [("year", .q 2023),
              ("return", .q (pyRound2 (pyUniform (g 11) (-15) 20)))],
      .vdict [("year", .q 2022),
              ("return", .q (pyRound2 (pyUniform (g 12) (-25) 15)))],
      .vdict [("year", .q 2021),
              ("return", .q (pyRound2 (pyUniform (g 13) (-5) 30)))]])]

/-- `volatility = round(random.uniform(10, 35), 2)` (draw 14). -/
def fbVolatility (g : ℕ → ℚ) : ℚ := pyRound2 (pyUniform (g 14) 10 35)

/-- `max_drawdown = round(random.uniform(5, 45), 2)` (draw 15). -/
def fbMaxDrawdown (g : ℕ → ℚ) : ℚ := pyRound2 (pyUniform (g 15) 5 45)

/-- `var_95 = round(-random.uniform(1.5, 4.5), 2)` (draw 16). -/
def fbVar95 (g : ℕ → ℚ) : ℚ := pyRound2 (-(pyUniform (g 16) 1.5 4.5))

/-- `sharpe_ratio = round(random.uniform(-0.5, 2.5), 2)` (draw 17). -/
def fbSharpe (g : ℕ → ℚ) : ℚ := pyRound2 (pyUniform (g 17) (-0.5) 2.5)

/-- `sortino_ratio = round(random.uniform(0, 3), 2)` (draw 18). -/
def fbSortino (g : ℕ → ℚ) : ℚ := pyRound2 (pyUniform (g 18) 0 3)

/-- `sma_20 = round(current_price * random.uniform(0.95, 1.05), 2)`
(draw 19). -/
def fbSma20 (g : ℕ → ℚ) : ℚ :=
  pyRound2 (fbCurrentPrice g * pyUniform (g 19) 0.95 1.05)

/-- `sma_50 = round(current_price * random.uniform(0.90, 1.10), 2)`
(draw 20). -/
def fbSma50 (g : ℕ → ℚ) : ℚ :=
  pyRound2 (fbCurrentPrice g * pyUniform (g 20) 0.90 1.10)

/-- `rsi = round(random.uniform(30, 70), 2)` (draw 21). -/
def fbRsi (g : ℕ → ℚ) : ℚ := pyRound2 (pyUniform (g 21) 30 70)

/-- `trend = "Bullish" if current_price > sma_20 else "Bearish"`. -/
def fbTrend (g : ℕ → ℚ) : String :=
  if fbCurrentPrice g > fbSma20 g then "Bullish" else "Bearish"

/-- The `comparison` dict: three draws per index, loop order
`^GSPC, ^FTSE, ^N225, ^HSI` (draws 22-33). -/
def fbComparisonEntry (g : ℕ → ℚ) (k : ℕ) : Val :=
  .vdict [("return", .q (pyRound2 (pyUniform (g k) (-20) 25))),
          ("outperformance", .q (pyRound2 (pyUniform (g (k+1)) (-500) 500))),
          ("volatility", .q (pyRound2 (pyUniform (g (k+2)) 8 40)))]

/-- The four-index comparison dict. -/
def fbComparisonFields (g : ℕ → ℚ) : List (String × Val) :=
  [("^GSPC", fbComparisonEntry g 22), ("^FTSE", fbComparisonEntry g 25),
   ("^N225", fbComparisonEntry g 28), ("^HSI", fbComparisonEntry g 31)]

/-- The `insights` list (f-strings over already-drawn values). -/
def fbInsights (symbol : String) (g : ℕ → ℚ) : List Val :=
  [.s (symbol ++ " shows moderate volatility with " ++ qStr (fbVolatility g)
        ++ "% annualized volatility."),
   .s ("Current trend appears " ++ pyLower (fbTrend g)
        ++ " based on moving averages."),
   .s ("Risk-adjusted returns show Sharpe ratio of " ++ qStr (fbSharpe g)
        ++ "."),
   .s ("Maximum drawdown over the period was " ++ qStr (fbMaxDrawdown g)
        ++ "%."),
   .s "Market conditions suggest cautious optimism for the coming quarters."]

/-- The `forecast` dict (draws 34-35). -/
def fbForecastFields (g : ℕ → ℚ) : List (String × Val) :=
  [("forecasted_return", .q (pyRound2 (pyUniform (g 34) (-5) 15))),
   ("forecasted_volatility", .q (pyRound2 (pyUniform (g 35) 12 30)))]

/-- `"beta": round(random.uniform(0.8, 1.3), 2)` — evaluated inside the
return literal, after the forecast draws (draw 36). -/
def fbBeta (g : ℕ → ℚ) : ℚ := pyRound2 (pyUniform (g 36) 0.8 1.3)

/-- `"sma_200": round(current_price * random.uniform(0.85, 1.15), 2)` —
evaluated inside the return literal (draw 37). -/
def fbSma200 (g : ℕ → ℚ) : ℚ :=
  pyRound2 (fbCurrentPrice g * pyUniform (g 37) 0.85 1.15)

/-- The `current_data` sub-dict of the fallback analysis. -/
def fbCurrentDataFields (g : ℕ → ℚ) : List (String × Val) :=
  [("current_price", .q (fbCurrentPrice g)),
   ("daily_change", .q (fbDailyChange g)),
   ("volume", .q ((fbVolume g : ℚ))),
   ("market_cap", .q ((fbMarketCap g : ℚ))),
   ("52_week_high", .q (fbWeekHigh g)),
   ("52_week_low", .q (fbWeekLow g))]

/-- The `risk_metrics` sub-dict of the fallback analysis. -/
def fbRiskMetricsFields (g : ℕ → ℚ) : List (String × Val) :=
  [("volatility", .q (fbVolatility g)),
   ("max_drawdown", .q (fbMaxDrawdown g)),
   ("var_95", .q (fbVar95 g)),
   ("sharpe_ratio", .q (fbSharpe g)),
   ("sortino_ratio", .q (fbSortino g)),
   ("beta", .q (fbBeta g))]

/-- The `technical_indicators` sub-dict of the fallback analysis. -/
def fbTechnicalFields (g : ℕ → ℚ) : List (String × Val) :=
  [("sma_20", .q (fbSma20 g)),
   ("sma_50", .q (fbSma50 g)),
   ("sma_200", .q (fbSma200 g)),
   ("rsi", .q (fbRsi g)),
   ("price_vs_sma_20",
    .q (pyRound2 ((fbCurrentPrice g / fbSma20 g - 1) * 100))),
   ("price_vs_sma_50",
    .q (pyRound2 ((fbCurrentPrice g / fbSma50 g - 1) * 100))),
   ("trend", .s (fbTrend g))]

/-- `_get_complete_fallback_index_analysis(symbol, topic, years)`:
the randomized fallback analysis dict.  `today` stands for
`datetime.now().strftime("%Y-%m-%d")`; `g` is the state of the global
random generator on entry. -/
def completeFallbackIndexAnalysis (today symbol topic : String) (years : ℕ)
    (g : ℕ → ℚ) : Val :=
  .vdict
    [("topic", .s topic),
     ("analysis_type", .s "Index Analysis"),
     ("symbol", .s symbol),
     ("current_data", .vdict (fbCurrentDataFields g)),
     ("historical_performance", .vdict (fbPerformanceFields g)),
     ("risk_metrics", .vdict (fbRiskMetricsFields g)),
     ("technical_indicators", .vdict (fbTechnicalFields g)),
     ("market_comparison", .vdict (fbComparisonFields g)),
     ("key_insights", .vlist (fbInsights symbol g)),
     ("forecast_data", .vdict (fbForecastFields g)),
     ("analysis_date", .s today),
     ("period_analyzed", .s (toString years ++ " years"))]

/-! ### `_analyze_index` (`market_data_service.py`, lines 207-296) -/

/-- The `alternative_symbols` table (lines 212-224). -/
def alternative_symbols : List (String × List String) :=
  [("^NSEI", ["NIFTY50.NS", "^NSEBANK", "^CNXIT"]),
   ("^GSPC", ["SPY", "QQQ", "VOO"]),
   ("^DJI", ["DIA", "UDOW"]),
   ("^IXIC", ["QQQ", "TQQQ"]),
   ("^FTSE", ["^FTSE", "VUKE.L"]),
   ("^GDAXI", ["^GDAXI", "EXS1.DE"]),
   ("^N225", ["^N225", "EWJ"]),
   ("^HSI", ["^HSI", "FXI"]),
   ("^BSESN", ["^BSESN", "^CNXIT"]),
   ("^CNXIT", ["^CNXIT", "^NSEI"]),
   ("^NSEBANK", ["^NSEBANK", "^NSEI"])]

/-- `symbols_to_try = [symbol] + alternative_symbols.get(symbol, [])`. -/
def symbolsToTry (symbol : String) : List String :=
  symbol :: ((alternative_symbols.lookup symbol).getD [])

/-- Externally observable network effects of the market-data service:
`ticker.history(...)` requests and `time.sleep` backoff pauses. -/
inductive NetEvent where
  | histCall (sym : String)
  | sleep (seconds : ℚ)
  deriving DecidableEq, Repr

/-- Oracle for the external world of one `_analyze_index` attempt:
the outcomes of the `ticker.history` calls (indexed by retry round and
symbol) and whether `ticker.info` raises.  `none` models an exception from
the provider; `some n` a frame with `n` rows. -/
structure FetchEnv where
  hist1 : ℕ → String → Option ℕ
  hist2 : ℕ → String → Option ℕ
  infoRaises : ℕ → String → Bool

/-- The metrics that the live-data branch computes from the fetched frame
before reaching the `max_drawdown` field — descriptive statistics delegated
to pandas/numpy, abstracted as oracle values (they never influence the
result: see `buildLiveIndexAnalysis`). -/
structure LiveStats where
  currentPrice : ℚ
  totalReturn : ℚ
  volatility : ℚ
  historicalPrices : List Val
  rest : List (String × Val)

/-- The class body of `MarketDataService` defines no method
`_calculate_max_drawdown`, so the attribute lookup
`self._calculate_max_drawdown` (line 270) raises `AttributeError`. -/
def callCalculateMaxDrawdown : Except PyErr ℚ := .error .attributeError

/-- Evaluation of the `analysis` dict literal in the live-data branch
(lines 263-282).  The fields are evaluated top to bottom; the
`"max_drawdown"` field calls the missing method and raises, so evaluation
never reaches the `return analysis` statement. -/
def buildLiveIndexAnalysis (topic sym : String) (st : LiveStats) :
    Except PyErr Val :=
  match callCalculateMaxDrawdown with
  | .error e => .error e
  | .ok dd =>
      .ok (.vdict
        ([("topic", .s topic), ("analysis_type", .s "Index Analysis"),
          ("symbol", .s sym), ("current_price", .q st.currentPrice),
          ("total_return", .q st.totalReturn),
          ("volatility", .q st.volatility),
          ("max_drawdown", .q dd),
          ("historical_prices", .vlist st.historicalPrices)] ++ st.rest))

/-- One iteration of the inner `for sym in symbols_to_try[:2]` loop body
(lines 234-288) at retry round `a`: the history fetch with its
shorter-period refetch, the `ticker.info` access, the 30-row gate, and the
dict construction whose failure is swallowed by the blanket
`except Exception: continue`.  Returns the analysis if the body executed
`return analysis`, together with the network events it emitted. -/
def indexAttempt (env : FetchEnv) (st : LiveStats) (topic : String)
    (a : ℕ) (sym : String) : Option Val × List NetEvent :=
  let rows : ℕ :=
    match env.hist1 a sym with
    | none => 0
    | some 0 => (env.hist2 a sym).getD 0
    | some r => r
  let events : List NetEvent :=
    match env.hist1 a sym with
    | none => [.histCall sym]
    | some 0 => [.histCall sym, .histCall sym]
    | some _ => [.histCall sym]
  if env.infoRaises a sym then (none, events)
  else if rows > 0 && rows ≥ 30 then
    match buildLiveIndexAnalysis topic sym st with
    | .ok v => (some v, events)
    | .error _ => (none, events)
  else (none, events)

/-- The inner symbol loop: Python returns out of the loop at the first
successful attempt, so later symbols are not fetched. -/
def indexSymbolLoop (env : FetchEnv) (st : LiveStats) (topic : String)
    (a : ℕ) : List String → Option Val × List NetEvent
  | [] => (none, [])
  | sym :: rest =>
      match indexAttempt env st topic a sym with
      | (some v, t) => (some v, t)
      | (none, t) =>
          let r := indexSymbolLoop env st topic a rest
          (r.1, t ++ r.2)

/-- The outer `for attempt in range(max_retries)` loop (lines 232-293) with
`max_retries = 2`, `base_delay = 0.5`: after a failed round that is not the
last, sleep `min(base_delay * 2**attempt + random.uniform(0, 0.5), 2)`
(one raw draw per backoff).  Returns the result, the event trace, and the
number of raw draws consumed. -/
def indexRetryLoop (env : FetchEnv) (st : LiveStats) (topic : String)
    (syms : List String) (g : ℕ → ℚ) :
    List ℕ → Option Val × List NetEvent × ℕ
  | [] => (none, [], 0)
  | a :: rest =>
      match indexSymbolLoop env st topic a syms with
      | (some v, t) => (some v, t, 0)
      | (none, t) =>
          match rest with
          | [] => (none, t, 0)
          | b :: more =>
              let delay : ℚ :=
                min ((1/2) * 2 ^ a + pyUniform (g 0) 0 (1/2)) 2
              let r := indexRetryLoop env st topic syms (shiftDraws g 1)
                         (b :: more)
              (r.1, t ++ .sleep delay :: r.2.1, r.2.2 + 1)

/-- `_analyze_index(symbol, topic, years)`: try the first two candidate
symbols for two rounds; if no attempt returns, fall back to
`_get_complete_fallback_index_analysis(symbol, topic, years)` (line 296,
with the original `symbol` argument).  The second component is the trace of
network events. -/
def analyzeIndex (env : FetchEnv) (st : LiveStats) (today symbol topic :
    String) (years : ℕ) (g : ℕ → ℚ) : Val × List NetEvent :=
  let syms := (symbolsToTry symbol).take 2
  match indexRetryLoop env st topic syms g (List.range 2) with
  | (some v, t, _) => (v, t)
  | (none, t, k) =>
      (completeFallbackIndexAnalysis today symbol topic years
        (shiftDraws g k), t)

/-! ### The static fallback analyses
(`market_data_service.py`, lines 782-944) -/

/-- `_get_fallback_current_metrics` (lines 881-890). -/
def fallbackCurrentMetrics : Val :=
  .vdict [("current_price", .q 0), ("daily_change", .q 0), ("volume", .q 0),
          ("market_cap", .q 0), ("52_week_high", .q 0), ("52_week_low", .q 0)]

/-- `_get_fallback_technical_indicators` (lines 914-924). -/
def fallbackTechnicalIndicators : Val :=
  .vdict [("sma_20", .q 0), ("sma_50", .q 0), ("sma_200", .q 0),
          ("rsi", .q 0), ("price_vs_sma_20", .q 0), ("price_vs_sma_50", .q 0),
          ("trend", .s "Unknown")]

/-- `_get_fallback_sector_analysis` (lines 782-801). -/
def fallbackSectorAnalysis (today sector topic : String) (years : ℕ) : Val :=
  .vdict
    [("topic", .s topic), ("analysis_type", .s "Sector Analysis"),
     ("sector", .s sector),
     ("sector_performance", .vdict
       [("avg_return", .q 0), ("best_performer", .vdict []),
        ("worst_performer", .vdict []), ("sector_volatility", .q 0)]),
     ("top_stocks", .vlist []),
     ("sector_trends", .vlist [.s "Sector trends are not available."]),
     ("investment_thesis", .s "Sector thesis is not available."),
     ("risk_factors", .vlist [.s "Sector risks are not available."]),
     ("opportunities",
      .vlist [.s "Sector opportunities are not available."]),
     ("analysis_date", .s today),
     ("period_analyzed", .s (toString years ++ " years"))]

/-- `_get_fallback_stock_analysis` (lines 803-827). -/
def fallbackStockAnalysis (today symbol topic : String) (years : ℕ) : Val :=
  .vdict
    [("topic", .s topic), ("analysis_type", .s "Individual Stock Analysis"),
     ("symbol", .s symbol),
     ("company_info", .vdict
       [("name", .s symbol), ("sector", .s "Unknown"),
        ("industry", .s "Unknown"), ("market_cap", .q 0),
        ("employees", .q 0)]),
     ("current_metrics", fallbackCurrentMetrics),
     ("financial_health", .vdict []), ("valuation_metrics", .vdict []),
     ("technical_analysis", fallbackTechnicalIndicators),
     ("peer_comparison", .vdict []), ("growth_analysis", .vdict []),
     ("dividend_analysis", .vdict []), ("risk_assessment", .vdict []),
     ("investment_recommendation", .s "No recommendation available."),
     ("analysis_date", .s today),
     ("period_analyzed", .s (toString years ++ " years"))]

/-- `_get_fallback_commodity_analysis` (lines 829-844). -/
def fallbackCommodityAnalysis (today symbol topic : String) (years : ℕ) :
    Val :=
  .vdict
    [("topic", .s topic), ("analysis_type", .s "Commodity Analysis"),
     ("symbol", .s symbol),
     ("price_analysis", .vdict []), ("supply_demand", .vdict []),
     ("seasonal_patterns", .vdict []), ("correlation_analysis", .vdict []),
     ("macro_factors", .vdict []), ("price_forecast", .vdict []),
     ("trading_insights", .vdict []),
     ("analysis_date", .s today),
     ("period_analyzed", .s (toString years ++ " years"))]

/-- `_get_fallback_theme_analysis` (lines 846-862). -/
def fallbackThemeAnalysis (today theme topic : String) (years : ℕ) : Val :=
  .vdict
    [("topic", .s topic),
     ("analysis_type", .s "Thematic Investment Analysis"),
     ("theme", .s theme),
     ("theme_performance", .vdict []), ("top_performers", .vlist []),
     ("sector_breakdown", .vdict []), ("market_trends", .vdict []),
     ("growth_drivers", .vdict []), ("risks_challenges", .vdict []),
     ("investment_strategy", .s "No strategy available."),
     ("future_outlook", .s "No outlook available."),
     ("analysis_date", .s today),
     ("period_analyzed", .s (toString years ++ " years"))]

/-- `_get_fallback_general_analysis` (lines 864-879): its `primary_market`
field is a fresh call to `_get_complete_fallback_index_analysis("^NSEI",
"Nifty 50", years)`. -/
def fallbackGeneralAnalysis (today topic : String) (years : ℕ)
    (g : ℕ → ℚ) : Val :=
  .vdict
    [("topic", .s topic), ("analysis_type", .s "General Market Analysis"),
     ("primary_market",
      completeFallbackIndexAnalysis today "^NSEI" "Nifty 50" years g),
     ("global_context", .vdict []),
     ("market_overview", .s "No overview available."),
     ("key_trends", .vlist []), ("economic_factors", .vdict []),
     ("investment_themes", .vlist []), ("risk_outlook", .vdict []),
     ("strategic_recommendations", .s "No recommendations available."),
     ("analysis_date", .s today),
     ("period_analyzed", .s (toString years ++ " years"))]

/-! ### The other analyzers and `get_comprehensive_analysis`
(`market_data_service.py`, lines 118-139 and 298-566).

Each of `_analyze_sector`, `_analyze_individual_stock`,
`_analyze_commodity`, `_analyze_investment_theme` and
`_analyze_general_market` wraps its whole body — network fetches and
pandas/numpy statistics over external data — in one `try`, and its
`except Exception` handler shows a UI warning (a no-op here) and returns
the corresponding static fallback dict.  The bodies are abstracted as
oracle computations that may raise. -/

/-- The external-world oracle for one `MarketDataService` call. -/
structure ServiceEnv where
  fetch : FetchEnv
  live : LiveStats
  today : String
  g : ℕ → ℚ
  sectorBody : String → String → ℕ → Except PyErr Val
  stockBody : String → String → ℕ → Except PyErr Val
  commodityBody : String → String → ℕ → Except PyErr Val
  themeBody : String → String → ℕ → Except PyErr Val
  generalBody : String → ℕ → Except PyErr Val

/-- `_analyze_sector` (lines 298-366): body, else fallback. -/
def analyzeSector (env : ServiceEnv) (sector topic : String) (years : ℕ) :
    Val :=
  match env.sectorBody sector topic years with
  | .ok v => v
  | .error _ => fallbackSectorAnalysis env.today sector topic years

/-- `_analyze_individual_stock` (lines 368-419): body, else fallback. -/
def analyzeIndividualStock (env : ServiceEnv) (symbol topic : String)
    (years : ℕ) : Val :=
  match env.stockBody symbol topic years with
  | .ok v => v
  | .error _ => fallbackStockAnalysis env.today symbol topic years

/-- `_analyze_commodity` (lines 421-456): body, else fallback. -/
def analyzeCommodity (env : ServiceEnv) (symbol topic : String)
    (years : ℕ) : Val :=
  match env.commodityBody symbol topic years with
  | .ok v => v
  | .error _ => fallbackCommodityAnalysis env.today symbol topic years

/-- `_analyze_investment_theme` (lines 458-514): body, else fallback. -/
def analyzeInvestmentTheme (env : ServiceEnv) (theme topic : String)
    (years : ℕ) : Val :=
  match env.themeBody theme topic years with
  | .ok v => v
  | .error _ => fallbackThemeAnalysis env.today theme topic years

/-- `_analyze_general_market` (lines 516-566): body, else fallback. -/
def analyzeGeneralMarket (env : ServiceEnv) (topic : String) (years : ℕ) :
    Val :=
  match env.generalBody topic years with
  | .ok v => v
  | .error _ => fallbackGeneralAnalysis env.today topic years env.g

/-- `d[k]`: dictionary indexing, raising `KeyError` when absent. -/
def getItem (v : Val) (k : String) : Except PyErr Val :=
  match v.lookup k with
  | some x => .ok x
  | none => .error .keyError

/-- `analysis_type["type"] == "index"` and friends: Python `==` against a
string literal (non-strings compare unequal). -/
def Val.isStr (v : Val) (t : String) : Bool :=
  match v with
  | .s u => u == t
  | _ => false

/-- The string payload of a `Val` known to be a string (the parsed `symbol`,
`sector` and `theme` fields always are). -/
def Val.asString : Val → String
  | .s t => t
  | _ => ""

/-- The body of the `try` in `get_comprehensive_analysis` (lines 120-135):
parse the topic and dispatch on its `type` tag, defaulting to the general
market analysis. -/
def dispatchAnalysis (env : ServiceEnv) (topic : String) (years : ℕ) :
    Except PyErr Val :=
  let pt := parseTopic topic
  (getItem pt "type").bind fun tv =>
  if tv.isStr "index" then
    (getItem pt "symbol").bind fun sv =>
      .ok (analyzeIndex env.fetch env.live env.today sv.asString topic years
            env.g).1
  else if tv.isStr "sector" then
    (getItem pt "sector").bind fun sv =>
      .ok (analyzeSector env sv.asString topic years)
  else if tv.isStr "stock" then
    (getItem pt "symbol").bind fun sv =>
      .ok (analyzeIndividualStock env sv.asString topic years)
  else if tv.isStr "commodity" then
    (getItem pt "symbol").bind fun sv =>
      .ok (analyzeCommodity env sv.asString topic years)
  else if tv.isStr "theme" then
    (getItem pt "theme").bind fun sv =>
      .ok (analyzeInvestmentTheme env sv.asString topic years)
  else
    .ok (analyzeGeneralMarket env topic years)

/-- `get_comprehensive_analysis(topic, years)` (lines 118-139): the dispatch
wrapped in `try/except`; the handler shows a UI error (a no-op here) and
returns `_get_fallback_general_analysis(topic, years)`. -/
def getComprehensiveAnalysis (env : ServiceEnv) (topic : String)
    (years : ℕ) : Val :=
  match dispatchAnalysis env topic years with
  | .ok v => v
  | .error _ => fallbackGeneralAnalysis env.today topic years env.g

/-! ### Fetch traces of the non-retrying analyzers
(`market_data_service.py`, lines 298-566).

Each of these paths performs, per considered symbol, one `ticker.history`
request — refetched once over a shorter period when the first frame is empty
— inside a per-symbol `try`, with no retry loop and no backoff sleep.  Only
the `ticker.history` requests are traced; the oracle pair `(h1, h2)` gives
the outcomes of the two possible calls per symbol (`none` = the call
raises). -/

/-- The trace of the per-symbol history fetch with its shorter-period
refetch (the pattern at lines 316-323, 375-382, 428-435, 471-478,
532-539). -/
def singleFetchTrace (h1 h2 : Option ℕ) (sym : String) : List NetEvent :=
  match h1 with
  | none => [.histCall sym]
  | some 0 => (match h2 with | _ => [.histCall sym, .histCall sym])
  | some _ => [.histCall sym]

/-- Fetch trace of `_analyze_sector` (line 310: `for stock in stocks[:10]`). -/
def sectorFetchTrace (h1 h2 : String → Option ℕ) (stocks : List String) :
    List NetEvent :=
  (stocks.take 10).flatMap fun s => singleFetchTrace (h1 s) (h2 s) s

/-- Fetch trace of `_analyze_individual_stock` (single symbol). -/
def stockFetchTrace (h1 h2 : String → Option ℕ) (symbol : String) :
    List NetEvent :=
  singleFetchTrace (h1 symbol) (h2 symbol) symbol

/-- Fetch trace of `_analyze_commodity` (single symbol). -/
def commodityFetchTrace (h1 h2 : String → Option ℕ) (symbol : String) :
    List NetEvent :=
  singleFetchTrace (h1 symbol) (h2 symbol) symbol

/-- Fetch trace of `_analyze_investment_theme` (line 465:
`for stock in theme_stocks[:15]`). -/
def themeFetchTrace (h1 h2 : String → Option ℕ) (stocks : List String) :
    List NetEvent :=
  (stocks.take 15).flatMap fun s => singleFetchTrace (h1 s) (h2 s) s

/-- Fetch trace of `_analyze_general_market` (lines 516-545): the nested
`_analyze_index("^NSEI", "Nifty 50", years)` call followed by one
single-pass fetch per global index. -/
def generalMarketFetchTrace (env : FetchEnv) (st : LiveStats)
    (today : String) (years : ℕ) (g : ℕ → ℚ)
    (h1 h2 : String → Option ℕ) : List NetEvent :=
  (analyzeIndex env st today "^NSEI" "Nifty 50" years g).2 ++
  (["^GSPC", "^FTSE", "^N225", "^HSI"].flatMap fun idx =>
    singleFetchTrace (h1 idx) (h2 idx) idx)

/-! ### `FinancialContentGenerator` (`src/services/content_generator.py`) -/

/-- `self.financial_templates`: presentation type → ordered section titles. -/
def financial_templates : List (String × List String) :=
  [("quarterly_analysis",
    ["Executive Summary & Key Highlights", "Financial Performance Overview",
     "Revenue Analysis & Growth Trends", "Profitability & Margin Analysis",
     "Cash Flow & Liquidity Position", "Balance Sheet Strength",
     "Market Position & Competitive Analysis",
     "Risk Assessment & Mitigation", "Strategic Initiatives & Outlook"]),
   ("investment_proposal",
    ["Investment Opportunity Overview", "Market Analysis & Size",
     "Financial Projections", "Revenue Model & Assumptions",
     "Competitive Landscape", "Risk Analysis & Mitigation",
     "Management Team & Execution", "Financial Requirements",
     "Expected Returns & Exit Strategy"]),
   ("budget_planning",
    ["Budget Overview & Objectives", "Revenue Forecasting",
     "Operating Expense Planning", "Capital Expenditure Analysis",
     "Cash Flow Projections", "Variance Analysis", "Scenario Planning",
     "Resource Allocation", "Performance Metrics"])]

/-- `self.financial_templates.get(presentation_type,
self.financial_templates["quarterly_analysis"])`. -/
def templateTitles (ptype : String) : List String :=
  (financial_templates.lookup ptype).getD
    ((financial_templates.lookup "quarterly_analysis").getD [])

/-- A slide dict as assembled by the content generator (fixed key set:
`slide_number`, `title`, `content`, `visual_suggestion`, `data_points`). -/
structure Slide where
  slide_number : ℕ
  title : String
  content : List String
  visual_suggestion : Val
  data_points : List String
  deriving Repr

/-- The content dict returned by `generate_presentation_content` /
`_get_fallback_content` (`key_recommendations` exists only on the fallback
path). -/
structure PresContent where
  presentation_title : String
  executive_summary : String
  slides : List Slide
  key_recommendations : Option (List String)
  appendix_suggestions : List String
  deriving Repr

/-- Oracle for the external services used by the content generator: the
bullet points extracted from a SerpAPI search (per query and slide title)
and the image-search results (per query). -/
structure ContentEnv where
  market : ServiceEnv
  serpBullets : String → String → List String
  serpImages : String → List String

/-- `str(v)` as it appears inside the f-strings of the content generator
(string payloads verbatim, numbers via `qStr`). -/
def Val.pyStr : Val → String
  | .s t => t
  | .q x => qStr x
  | .b bv => if bv then "True" else "False"
  | .pynone => "None"
  | .vlist _ => "[...]"
  | .vdict _ => "{...}"

/-- Python `str.title()` (used for the presentation title). -/
def pyTitleCase (s : String) : String :=
  String.mk
    ((s.toList.foldl
        (fun acc c =>
          if c.isAlpha then
            ((if acc.2 then Char.toLower c else Char.toUpper c) :: acc.1,
             true)
          else (c :: acc.1, false))
        (([] : List Char), false)).1.reverse)

/-- `common_symbols` of `_extract_symbols_from_topic` (line 195). -/
def common_symbols : List String :=
  ["NIFTY", "SENSEX", "AAPL", "GOOGL", "MSFT", "TSLA"]

/-- `_extract_symbols_from_topic`: first common symbol contained in the
upper-cased topic, as a one-element list. -/
def extractSymbolsFromTopic (topic : String) : List String :=
  match common_symbols.find? (fun sym => pyIn sym (pyUpper topic)) with
  | some sym => [sym]
  | none => []

/-- Replace (or add) a key in a dict value, as Python `d[k] = x`. -/
def Val.setKey : Val → String → Val → Val
  | .vdict fields, k, x =>
      if (fields.lookup k).isSome then
        .vdict (fields.map fun p => if p.1 == k then (k, x) else p)
      else .vdict (fields ++ [(k, x)])
  | v, _, _ => v

/-- `_get_visual_suggestion(title, market_data, topic)` (lines 125-162). -/
def visualSuggestion (title : String) (marketData : Val) : Val :=
  let titleLower := pyLower title
  let imageDesc :=
    if pyIn "revenue" titleLower || pyIn "market share" titleLower then
      "professional stock image of business revenue growth and financial success"
    else if pyIn "performance" titleLower || pyIn "growth" titleLower then
      "professional stock image of business performance and growth trends"
    else if pyIn "financial" titleLower || pyIn "projections" titleLower then
      "professional stock image of financial planning and business projections"
    else if pyIn "risk" titleLower || pyIn "volatility" titleLower then
      "professional stock image of business risk management and strategy"
    else if pyIn "cash flow" titleLower then
      "professional stock image of cash flow management in business"
    else if pyIn "profitability" titleLower || pyIn "margin" titleLower then
      "professional stock image of business profitability and financial margins"
    else if pyIn "balance sheet" titleLower then
      "professional stock image of financial balance and business stability"
    else if pyIn "market position" titleLower then
      "professional stock image of market positioning and competitive business landscape"
    else if pyIn "strategic" titleLower || pyIn "outlook" titleLower then
      "professional stock image of business strategy and future outlook"
    else
      "professional stock image of " ++ titleLower ++
        " in finance and business"
  let imageDesc :=
    if marketData.truthy then
      let symbol := ((marketData.lookup "symbol").getD (.s "")).asString
      if symbol ≠ "" then
        "professional stock image of " ++ symbol ++
          " company in business context"
      else imageDesc
    else imageDesc
  .vdict [("image_type", .s "stock_image"),
          ("image_description", .s imageDesc),
          ("key_insight", .s ("Visual representation of " ++ title)),
          ("image_url", .pynone)]

/-- `_get_slide_data_points(title, market_data)` (lines 164-179). -/
def slideDataPoints (title : String) (md : Val) : List String :=
  if md.truthy then
    let tl := pyLower title
    if pyIn "performance" tl then
      (match md.lookup "current_price" with
       | some v => ["Current Price: $" ++ v.pyStr]
       | none => []) ++
      (match md.lookup "total_return" with
       | some v => ["1-Year Return: " ++ v.pyStr ++ "%"]
       | none => [])
    else if pyIn "risk" tl then
      (match md.lookup "volatility" with
       | some v => ["Volatility: " ++ v.pyStr ++ "%"]
       | none => []) ++
      (match md.lookup "max_drawdown" with
       | some v => ["Max Drawdown: " ++ v.pyStr ++ "%"]
       | none => [])
    else []
  else []

/-- `_enhance_slide_with_real_data` (lines 182-190), acting on the bullet
list of the slide: an `overview`/`summary` title gets the current price
inserted at the front, a `growth` title gets the total return appended. -/
def enhanceContent (content : List String) (title : String) (md : Val) :
    List String :=
  let tl := pyLower title
  if pyIn "overview" tl || pyIn "summary" tl then
    match md.lookup "current_price" with
    | some v => ("Current Market Price: $" ++ v.pyStr) :: content
    | none => content
  else if pyIn "growth" tl then
    match md.lookup "total_return" with
    | some v => content ++ ["Growth Rate: " ++ v.pyStr ++ "% YTD"]
    | none => content
  else content

/-- Lines 89-92: pad the extracted bullets to at least 4 entries with
`"• Additional insight on {title.lower()}"`, then truncate to at most 6. -/
def padBullets (title : String) (bullets : List String) : List String :=
  (bullets ++
    List.replicate (4 - bullets.length)
      ("• Additional insight on " ++ pyLower title)).take 6

/-- One iteration of the slide loop (lines 82-114): search bullets, pad and
truncate, compute the visual suggestion and image, the data points, and —
when real data was requested and present — enhance the bullet list. -/
def buildSlide (env : ContentEnv) (topic : String) (md : Val)
    (includeRealData : Bool) (i : ℕ) (title : String) : Slide :=
  let bullets := env.serpBullets (topic ++ " " ++ title) title
  let bullets := padBullets title bullets
  let vs := visualSuggestion title md
  let imageQuery :=
    ((vs.lookup "image_description").getD (.s "")).asString ++ " finance "
      ++ topic
  let vs :=
    match env.serpImages imageQuery with
    | url :: _ => vs.setKey "image_url" (.s url)
    | [] => vs
  let content :=
    if includeRealData && md.truthy then enhanceContent bullets title md
    else bullets
  { slide_number := i + 1, title := title, content := content,
    visual_suggestion := vs, data_points := slideDataPoints title md }

/-- `_get_appendix_suggestions` (lines 214-222). -/
def appendixSuggestions : List String :=
  ["Detailed financial models and assumptions",
   "Supporting market research and data sources",
   "Risk assessment matrices and scenario analysis",
   "Competitive benchmarking and industry comparisons",
   "Regulatory compliance and legal considerations"]

/-- `_get_fallback_content(topic, presentation_type, target_audience,
slide_count)` (lines 224-249): three fixed bullets per slide. -/
def fallbackContent (topic ptype audience : String) (slideCount : ℕ) :
    PresContent :=
  let titles := (templateTitles ptype).take slideCount
  { presentation_title := "Financial Presentation: " ++ topic,
    executive_summary :=
      "This presentation covers " ++ topic ++ " for " ++ audience ++ ".",
    slides := titles.enum.map fun p =>
      { slide_number := p.1 + 1, title := p.2,
        content := ["Key point 1 for " ++ p.2, "Key point 2 for " ++ p.2,
                    "Key point 3 for " ++ p.2],
        visual_suggestion := .vdict [("chart_type", .s "bar"),
                                     ("data_description", .s "Sample data")],
        data_points := [] },
    key_recommendations :=
      some ["Conduct further analysis", "Monitor key metrics",
            "Implement recommendations"],
    appendix_suggestions := ["Additional data", "Supporting documents"] }

/-- `generate_presentation_content(topic, presentation_type,
target_audience, slide_count, include_real_data, content_provider)`
(lines 60-123): the fallback path for a non-SerpAPI provider, otherwise the
SerpAPI slide loop.  (The initial whole-topic search of line 67 binds a
variable that is never used afterwards and is omitted.) -/
def generatePresentationContent (env : ContentEnv)
    (topic ptype audience : String) (slideCount : ℕ)
    (includeRealData : Bool) (contentProvider : String) : PresContent :=
  if contentProvider ≠ "SerpAPI" then
    fallbackContent topic ptype audience slideCount
  else
    let titles := (templateTitles ptype).take slideCount
    let md : Val :=
      if includeRealData then
        match extractSymbolsFromTopic topic with
        | sym :: _ => getComprehensiveAnalysis env.market sym 3
        | [] => .vdict []
      else .vdict []
    { presentation_title := pyTitleCase ptype ++ " - " ++ topic,
      executive_summary :=
        "This presentation provides a comprehensive " ++ ptype ++ " on " ++
          topic ++ " for " ++ audience ++
          ", based on current market data and industry reports from reliable sources.",
      slides := titles.enum.map fun p =>
        buildSlide env topic md includeRealData p.1 p.2,
      key_recommendations := none,
      appendix_suggestions := appendixSuggestions }

/-! ### `ProfessionalPPTGenerator` (`src/services/ppt_generator.py`) -/

/-- A value in a template palette: a single RGB color or a list of them
(`bar_colors`). -/
inductive TVal where
  | color (r g b : ℕ)
  | colors (cs : List (ℕ × ℕ × ℕ))
  deriving DecidableEq, Repr

/-- `self.templates` (lines 16-78): the six visual themes. -/
def pptTemplates : List (String × List (String × TVal)) :=
  [("corporate_blue",
    [("primary_color", .color 31 78 121), ("secondary_color", .color 74 144 226),
     ("accent_color", .color 123 179 240), ("text_color", .color 51 51 51),
     ("background_color", .color 255 255 255),
     ("success_color", .color 40 167 69), ("warning_color", .color 255 193 7),
     ("danger_color", .color 220 53 69)]),
   ("financial_green",
    [("primary_color", .color 45 90 39), ("secondary_color", .color 76 175 80),
     ("accent_color", .color 129 199 132), ("text_color", .color 51 51 51),
     ("background_color", .color 255 255 255),
     ("success_color", .color 102 187 106),
     ("warning_color", .color 255 152 0), ("danger_color", .color 244 67 54)]),
   ("modern_orange",
    [("primary_color", .color 230 81 0), ("secondary_color", .color 255 152 0),
     ("accent_color", .color 255 183 77), ("text_color", .color 51 51 51),
     ("background_color", .color 255 255 255),
     ("success_color", .color 76 175 80), ("warning_color", .color 255 193 7),
     ("danger_color", .color 244 67 54)]),
   ("colorful_modern",
    [("bar_colors", .colors [(220, 53, 69), (255, 99, 132), (40, 167, 69),
                             (255, 193, 7)]),
     ("letter_color", .color 255 255 255), ("title_color", .color 0 0 0),
     ("background_color", .color 255 255 255)]),
   ("modern_white",
    [("primary_color", .color 0 51 102),
     ("secondary_color", .color 173 216 230),
     ("accent_color", .color 240 248 255), ("text_color", .color 51 51 51),
     ("background_color", .color 255 255 255),
     ("success_color", .color 144 238 144),
     ("warning_color", .color 255 228 196),
     ("danger_color", .color 255 182 193)]),
   ("executive_dark",
    [("primary_color", .color 25 25 25), ("secondary_color", .color 64 64 64),
     ("accent_color", .color 105 105 105), ("text_color", .color 255 255 255),
     ("background_color", .color 18 18 18),
     ("success_color", .color 76 175 80), ("warning_color", .color 255 193 7),
     ("danger_color", .color 244 67 54)])]

/-- What the deck builders add to the presentation, one value per
`slides.add_slide` call. -/
inductive BuiltSlide where
  | titleSlide (title : String)
  | agendaSlide (items : List String)
  | contentSlide (title : String)
  | summarySlide
  | appendixSlide
  deriving DecidableEq, Repr

/-- The kind of a built slide. -/
inductive SlideKind where
  | title | agenda | content | summary | appendix
  deriving DecidableEq, Repr

/-- Forget the payload of a built slide. -/
def BuiltSlide.kind : BuiltSlide → SlideKind
  | .titleSlide _ => .title
  | .agendaSlide _ => .agenda
  | .contentSlide _ => .content
  | .summarySlide => .summary
  | .appendixSlide => .appendix

/-- `colors[k]`: palette indexing, `KeyError` when the key is absent. -/
def colorsLookup (colors : List (String × TVal)) (k : String) :
    Except PyErr TVal :=
  match colors.lookup k with
  | some c => .ok c
  | none => .error .keyError

/-- `v.get(k, default)` where the result is assigned to a `.text` property
(which needs a string): absent keys give the default, string values pass
through, other values raise, and `.get` on a non-dict raises
`AttributeError`. -/
def dictGetStr (v : Val) (k d : String) : Except PyErr String :=
  match v with
  | .vdict fields =>
      match fields.lookup k with
      | none => .ok d
      | some (.s t) => .ok t
      | some _ => .error .typeError
  | _ => .error .attributeError

/-- `v.get(k, default)` returning the raw value. -/
def dictGet (v : Val) (k : String) (d : Val) : Except PyErr Val :=
  match v with
  | .vdict fields => .ok ((fields.lookup k).getD d)
  | _ => .error .attributeError

/-- `content.get("slides", [])`, which is then iterated: absent gives `[]`,
a list value passes through, anything else is modelled as `TypeError`. -/
def slidesListOf (content : Val) : Except PyErr (List Val) :=
  match content with
  | .vdict fields =>
      match fields.lookup "slides" with
      | none => .ok []
      | some (.vlist l) => .ok l
      | some _ => .error .typeError
  | _ => .error .attributeError

/-- The per-item loop over a bullet or data-point list: each entry is
`lstrip`ped, so a non-string entry raises `AttributeError`. -/
def strItems : List Val → Except PyErr (List String)
  | [] => .ok []
  | x :: rest =>
      match x with
      | Val.s t => (strItems rest).map fun ss => t :: ss
      | _ => .error .attributeError

/-- A list-of-strings field of a slide dict (`content`, `data_points`):
absent gives `[]`; the entries are later `lstrip`ped, so non-string entries
raise `AttributeError`. -/
def dictGetStrList (v : Val) (k : String) : Except PyErr (List String) :=
  match v with
  | .vdict fields =>
      match fields.lookup k with
      | none => .ok []
      | some (.vlist l) => strItems l
      | some _ => .error .typeError
  | _ => .error .attributeError

/-- `_create_title_slide` (lines 109-144): the branch test
`if "colorful_modern" in colors` checks for the key `"colorful_modern"`
inside the palette dict itself (whose keys are color names), so it is never
taken; the standard branch reads `background_color`, sets the title text
from `content.get("presentation_title", "Financial Analysis")`, then reads
`primary_color` and `secondary_color`. -/
def createTitleSlide (content : Val) (colors : List (String × TVal)) :
    Except PyErr BuiltSlide :=
  if (colors.lookup "colorful_modern").isSome then
    (colorsLookup colors "background_color").bind fun _ =>
    (colorsLookup colors "bar_colors").bind fun _ =>
    (colorsLookup colors "letter_color").bind fun _ =>
    (dictGetStr content "presentation_title" "Financial Analysis").bind
      fun t =>
    (colorsLookup colors "title_color").map fun _ => .titleSlide t
  else
    (colorsLookup colors "background_color").bind fun _ =>
    (dictGetStr content "presentation_title" "Financial Analysis").bind
      fun t =>
    (colorsLookup colors "primary_color").bind fun _ =>
    (colorsLookup colors "secondary_color").map fun _ => .titleSlide t

/-- One agenda line (line 246):
`f"{i+1}. {slide_data.get('title', f'Section {i+1}')}"`; `.get` on a
non-dict entry raises. -/
def agendaItem (i : ℕ) (v : Val) : Except PyErr String :=
  match v with
  | .vdict fields =>
      .ok (toString (i + 1) ++ ". " ++
        (match fields.lookup "title" with
         | some tv => tv.pyStr
         | none => "Section " ++ toString (i + 1)))
  | _ => .error .attributeError

/-- The agenda item loop over `slides_data[:8]`. -/
def agendaItemsAux : ℕ → List Val → Except PyErr (List String)
  | _, [] => .ok []
  | i, v :: rest =>
      (agendaItem i v).bind fun s =>
      (agendaItemsAux (i + 1) rest).map fun l => s :: l

/-- The executive-summary box of the agenda slide (lines 252-269): added
when the `executive_summary` entry is truthy; its first 100 characters are
sliced, which needs a string. -/
def execSummaryBlock (content : Val) (colors : List (String × TVal)) :
    Except PyErr Unit :=
  match content.lookup "executive_summary" with
  | some v =>
      if v.truthy then
        match v with
        | Val.s _ =>
            (colorsLookup colors "primary_color").bind fun _ =>
            (colorsLookup colors "text_color").map fun _ => ()
        | _ => .error .typeError
      else .ok ()
  | none => .ok ()

/-- `_create_agenda_slide` (lines 221-269): background and title formatting,
at most the first 8 slide titles, and the executive-summary box. -/
def createAgendaSlide (content : Val) (colors : List (String × TVal)) :
    Except PyErr BuiltSlide :=
  (colorsLookup colors "background_color").bind fun _ =>
  (colorsLookup colors "primary_color").bind fun _ =>
  (slidesListOf content).bind fun sl =>
  (agendaItemsAux 0 (sl.take 8)).bind fun items =>
  (if items.isEmpty then .ok (TVal.color 0 0 0)
   else colorsLookup colors "text_color").bind fun _ =>
  (execSummaryBlock content colors).map fun _ =>
  .agendaSlide items

/-- The image block of a content slide (lines 325-328): guarded by
`visual_suggestion and visual_suggestion.get("image_url")`; the download
itself sits in a `try/except` and never fails the build, but `.get` on a
truthy non-dict raises. -/
def visualBlock (slide_data : Val) : Except PyErr Val :=
  (dictGet slide_data "visual_suggestion" (.vdict [])).bind fun vs =>
  if vs.truthy then
    match vs with
    | Val.vdict fields =>
        (Except.ok ((fields.lookup "image_url").getD Val.pynone) :
          Except PyErr Val)
    | _ => Except.error PyErr.attributeError
  else Except.ok Val.pynone

/-- `_create_content_slide` (lines 271-330): background, title, the bullet
items and data points (string lists), and the optional image block. -/
def createContentSlide (slide_data : Val) (colors : List (String × TVal)) :
    Except PyErr BuiltSlide :=
  (colorsLookup colors "background_color").bind fun _ =>
  (dictGetStr slide_data "title" "Content Slide").bind fun t =>
  (colorsLookup colors "primary_color").bind fun _ =>
  (dictGetStrList slide_data "content").bind fun items =>
  (if items.isEmpty then .ok (TVal.color 0 0 0)
   else colorsLookup colors "text_color").bind fun _ =>
  (dictGetStrList slide_data "data_points").bind fun dps =>
  (if dps.isEmpty then .ok (TVal.color 0 0 0)
   else colorsLookup colors "text_color").bind fun _ =>
  (visualBlock slide_data).map fun _ =>
  .contentSlide t

/-- `_create_summary_slide` (lines 373-433) — defined by the class but never
called from `create_presentation`. -/
def createSummarySlide (content : Val) (colors : List (String × TVal)) :
    Except PyErr BuiltSlide :=
  (colorsLookup colors "background_color").bind fun _ =>
  (colorsLookup colors "primary_color").bind fun _ =>
  (dictGet content "key_recommendations"
    (.vlist [.s "Strategic recommendation based on analysis",
             .s "Operational improvement opportunity",
             .s "Risk mitigation strategy"])).map fun _ =>
  .summarySlide

/-- `_create_appendix_slide` (lines 435-487) — defined by the class but
never called from `create_presentation`. -/
def createAppendixSlide (content : Val) (colors : List (String × TVal)) :
    Except PyErr BuiltSlide :=
  (colorsLookup colors "background_color").bind fun _ =>
  (colorsLookup colors "primary_color").bind fun _ =>
  (dictGet content "appendix_suggestions"
    (.vlist [.s "Detailed financial models and assumptions",
             .s "Supporting market research and analysis",
             .s "Risk assessment matrices and scenarios",
             .s "Additional data sources and methodology"])).map fun _ =>
  .appendixSlide

/-- The content-slide loop of `create_presentation` (lines 99-100). -/
def contentSlidesLoop (colors : List (String × TVal)) :
    List Val → Except PyErr (List BuiltSlide)
  | [] => .ok []
  | sd :: rest =>
      (createContentSlide sd colors).bind fun b =>
      (contentSlidesLoop colors rest).map fun l => b :: l

/-- `create_presentation(content, template)` (lines 80-107): look up the
palette (`self.templates[template]` raises `KeyError` for unknown names),
then build the title slide, the agenda slide, and one content slide per
entry of `content.get("slides", [])`.  The summary and appendix builders
are not called. -/
def createPresentation (template : String) (content : Val) :
    Except PyErr (List BuiltSlide) :=
  match pptTemplates.lookup template with
  | none => .error .keyError
  | some colors =>
      (createTitleSlide content colors).bind fun ts =>
      (createAgendaSlide content colors).bind fun ags =>
      (slidesListOf content).bind fun sl =>
      (contentSlidesLoop colors sl).map fun cs =>
      ts :: ags :: cs

/-- The five palettes that contain the standard color keys (all built-in
templates except `colorful_modern`, whose key set lacks `primary_color`). -/
def standardTemplates : List String :=
  ["corporate_blue", "financial_green", "modern_orange", "modern_white",
   "executive_dark"]

/-- Shape constraints under which the deck builders run to completion: the
slide entries are dicts with string titles, string-list `content` and
`data_points`, and dict `visual_suggestion` (when truthy). -/
def wfSlideEntry (v : Val) : Bool :=
  match v with
  | .vdict fields =>
      (match fields.lookup "title" with
       | none => true | some (.s _) => true | some _ => false) &&
      (match fields.lookup "content" with
       | none => true
       | some (.vlist l) =>
           l.all fun x => match x with | Val.s _ => true | _ => false
       | some _ => false) &&
      (match fields.lookup "data_points" with
       | none => true
       | some (.vlist l) =>
           l.all fun x => match x with | Val.s _ => true | _ => false
       | some _ => false) &&
      (match fields.lookup "visual_suggestion" with
       | none => true
       | some (.vdict _) => true
       | some w => !w.truthy)
  | _ => false

/-- Shape constraints on the whole content dict. -/
def wfContent (content : Val) : Bool :=
  match content with
  | .vdict fields =>
      (match fields.lookup "presentation_title" with
       | none => true | some (.s _) => true | some _ => false) &&
      (match fields.lookup "executive_summary" with
       | none => true | some (.s _) => true | some w => !w.truthy) &&
      (match fields.lookup "slides" with
       | none => true
       | some (.vlist l) => l.all wfSlideEntry
       | some _ => false)
  | _ => false

/-! ### Concrete environments used by witnesses and counterexamples -/

/-- A fetch oracle where every history call raises. -/
def trivFetchEnv : FetchEnv :=
  { hist1 := fun _ _ => none, hist2 := fun _ _ => none,
    infoRaises := fun _ _ => false }

/-- Dummy live statistics (never consulted by any result). -/
def trivLiveStats : LiveStats :=
  { currentPrice := 0, totalReturn := 0, volatility := 0,
    historicalPrices := [], rest := [] }

/-- A service oracle whose analyzer bodies all succeed with empty dicts. -/
def trivServiceEnv : ServiceEnv :=
  { fetch := trivFetchEnv, live := trivLiveStats, today := "2024-01-01",
    g := fun _ => 0,
    sectorBody := fun _ _ _ => .ok (.vdict []),
    stockBody := fun _ _ _ => .ok (.vdict []),
    commodityBody := fun _ _ _ => .ok (.vdict []),
    themeBody := fun _ _ _ => .ok (.vdict []),
    generalBody := fun _ _ => .ok (.vdict []) }

/-- A service oracle whose sector-analysis body raises. -/
def failingSectorEnv : ServiceEnv :=
  { trivServiceEnv with sectorBody := fun _ _ _ => .error .typeError }

/-- A content-generator oracle returning no search results. -/
def trivContentEnv : ContentEnv :=
  { market := trivServiceEnv, serpBullets := fun _ _ => [],
    serpImages := fun _ => [] }

/-! ### Trace observations (for the retry-policy claims) -/

/-- Is the event a backoff sleep? -/
def isSleepEv : NetEvent → Bool
  | .sleep _ => true
  | .histCall _ => false

/-- A sleep event's duration is at most 2 seconds (history calls pass). -/
def sleepDurOk : NetEvent → Bool
  | .sleep d => decide (d ≤ 2)
  | .histCall _ => true

/-- The symbols of the history calls in a trace. -/
def histSyms (tr : List NetEvent) : List String :=
  tr.filterMap fun e =>
    match e with
    | .histCall s => some s
    | .sleep _ => none

/-- The event is a history call for one of the candidate symbols (and in
particular not a sleep). -/
def evOkFor (cands : List String) : NetEvent → Bool
  | .histCall s => cands.contains s
  | .sleep _ => false

/-- The full key set of the fallback index analysis (the metric set the
spec's Fallback Synthesizer contract promises): every top-level field and
every field of the nested metric dicts is present. -/
def fallbackFieldsComplete (d : Val) : Bool :=
  (["topic", "analysis_type", "symbol", "current_data",
    "historical_performance", "risk_metrics", "technical_indicators",
    "market_comparison", "key_insights", "forecast_data", "analysis_date",
    "period_analyzed"].all d.hasKey) &&
  (match d.lookup "current_data" with
   | some cd => ["current_price", "daily_change", "volume", "market_cap",
                 "52_week_high", "52_week_low"].all cd.hasKey
   | none => false) &&
  (match d.lookup "historical_performance" with
   | some hp => ["1_month", "3_months", "6_months", "1_year", "3_years",
                 "yearly_breakdown"].all hp.hasKey
   | none => false) &&
  (match d.lookup "risk_metrics" with
   | some rm => ["volatility", "max_drawdown", "var_95", "sharpe_ratio",
                 "sortino_ratio", "beta"].all rm.hasKey
   | none => false) &&
  (match d.lookup "technical_indicators" with
   | some ti => ["sma_20", "sma_50", "sma_200", "rsi", "price_vs_sma_20",
                 "price_vs_sma_50", "trend"].all ti.hasKey
   | none => false) &&
  (match d.lookup "market_comparison" with
   | some mc => ["^GSPC", "^FTSE", "^N225", "^HSI"].all mc.hasKey
   | none => false) &&
  (match d.lookup "forecast_data" with
   | some fc => ["forecasted_return", "forecasted_volatility"].all fc.hasKey
   | none => false)

/-! ## Theorems -/

/-! ### Shared helper lemmas -/

theorem shiftDraws_valid {g : ℕ → ℚ} (hg : ValidDraws g) (k : ℕ) :
    ValidDraws (shiftDraws g k) := fun n => hg (n + k)

theorem pyUniform_mem {u a b : ℚ} (hab : a ≤ b) (h0 : 0 ≤ u) (h1 : u < 1) :
    a ≤ pyUniform u a b ∧ pyUniform u a b ≤ b := by
  unfold pyUniform
  constructor
  · nlinarith
  · nlinarith

theorem round_mono_q {x y : ℚ} (h : x ≤ y) : round x ≤ round y := by
  rw [round_eq, round_eq]
  exact Int.floor_le_floor (by linarith)

theorem pyRound2_bounds {a b x : ℚ} (za zb : ℤ) (ha : (za : ℚ) = a * 100)
    (hb : (zb : ℚ) = b * 100) (h1 : a ≤ x) (h2 : x ≤ b) :
    a ≤ pyRound2 x ∧ pyRound2 x ≤ b := by
  unfold pyRound2
  have hlb : za ≤ round (x * 100) := by
    have : round ((za : ℚ)) ≤ round (x * 100) := round_mono_q (by nlinarith)
    simpa using this
  have hub : round (x * 100) ≤ zb := by
    have : round (x * 100) ≤ round ((zb : ℚ)) := round_mono_q (by nlinarith)
    simpa using this
  have hlb' : (za : ℚ) ≤ ((round (x * 100) : ℤ) : ℚ) := by exact_mod_cast hlb
  have hub' : ((round (x * 100) : ℤ) : ℚ) ≤ (zb : ℚ) := by exact_mod_cast hub
  rw [ha] at hlb'
  rw [hb] at hub'
  constructor
  · linarith
  · linarith

/-! ### C1: the live branch of `_analyze_index` is unreachable -/

theorem indexAttempt_fst (env : FetchEnv) (st : LiveStats) (topic : String)
    (a : ℕ) (sym : String) : (indexAttempt env st topic a sym).1 = none := by
  unfold indexAttempt
  split <;> simp [buildLiveIndexAnalysis, callCalculateMaxDrawdown]

theorem indexSymbolLoop_fst (env : FetchEnv) (st : LiveStats)
    (topic : String) (a : ℕ) (syms : List String) :
    (indexSymbolLoop env st topic a syms).1 = none := by
  induction syms with
  | nil => rfl
  | cons s rest ih =>
      unfold indexSymbolLoop
      rcases hA : indexAttempt env st topic a s with ⟨f, t⟩
      have hf : f = none := by
        have h := indexAttempt_fst env st topic a s
        rw [hA] at h
        exact h
      subst hf
      simp [ih]

theorem indexRetryLoop_all_fail (env : FetchEnv) (st : LiveStats)
    (topic : String) (syms : List String) (g : ℕ → ℚ) :
    indexRetryLoop env st topic syms g (List.range 2) =
      (none,
       (indexSymbolLoop env st topic 0 syms).2 ++
         .sleep (min ((1/2) * 2 ^ (0 : ℕ) + pyUniform (g 0) 0 (1/2)) 2) ::
           (indexSymbolLoop env st topic 1 syms).2,
       1) := by
  have hr : List.range 2 = [0, 1] := rfl
  rcases h0 : indexSymbolLoop env st topic 0 syms with ⟨f0, t0⟩
  have hf0 : f0 = none := by
    have h := indexSymbolLoop_fst env st topic 0 syms
    rw [h0] at h
    exact h
  subst hf0
  rcases h1 : indexSymbolLoop env st topic 1 syms with ⟨f1, t1⟩
  have hf1 : f1 = none := by
    have h := indexSymbolLoop_fst env st topic 1 syms
    rw [h1] at h
    exact h
  subst hf1
  rw [hr]
  unfold indexRetryLoop
  unfold indexRetryLoop
  simp only [h0, h1]

theorem analyzeIndex_result_eq (env : FetchEnv) (st : LiveStats)
    (today symbol topic : String) (years : ℕ) (g : ℕ → ℚ) :
    (analyzeIndex env st today symbol topic years g).1 =
      completeFallbackIndexAnalysis today symbol topic years
        (shiftDraws g 1) := by
  simp only [analyzeIndex, indexRetryLoop_all_fail]

/-- C1: for every symbol, topic and years value, `_analyze_index` returns
the randomized fallback dictionary produced by
`_get_complete_fallback_index_analysis` (one raw draw having been consumed
by the inter-round backoff): constructing the live analysis dict calls
`self._calculate_max_drawdown`, a method defined nowhere in the class, so
the live branch always raises `AttributeError`, the blanket `except`
swallows it, and the live-data `return` is unreachable. -/
theorem c1_analyzeIndex_always_fallback (env : FetchEnv) (st : LiveStats)
    (today symbol topic : String) (years : ℕ) (g : ℕ → ℚ) :
    (analyzeIndex env st today symbol topic years g).1 =
      completeFallbackIndexAnalysis today symbol topic years
        (shiftDraws g 1) ∧
    buildLiveIndexAnalysis topic symbol st = .error .attributeError :=
  ⟨analyzeIndex_result_eq env st today symbol topic years g, rfl⟩

/-! ### C7: the fallback synthesizer's ranges and completeness -/

/-- C7: every dict produced by `_get_complete_fallback_index_analysis` (for
a valid stream of raw draws) has its `risk_metrics.volatility` in
`[10, 35]`, its `technical_indicators.rsi` in `[30, 70]`, and no missing
field anywhere in the promised metric set. -/
theorem c7_fallback_ranges_and_completeness (today sym topic : String)
    (years : ℕ) (g : ℕ → ℚ) (hg : ValidDraws g) :
    fallbackFieldsComplete
        (completeFallbackIndexAnalysis today sym topic years g) = true ∧
    (completeFallbackIndexAnalysis today sym topic years g).lookup
        "risk_metrics" = some (.vdict (fbRiskMetricsFields g)) ∧
    (Val.vdict (fbRiskMetricsFields g)).lookup "volatility" =
      some (.q (fbVolatility g)) ∧
    10 ≤ fbVolatility g ∧ fbVolatility g ≤ 35 ∧
    (completeFallbackIndexAnalysis today sym topic years g).lookup
        "technical_indicators" = some (.vdict (fbTechnicalFields g)) ∧
    (Val.vdict (fbTechnicalFields g)).lookup "rsi" = some (.q (fbRsi g)) ∧
    30 ≤ fbRsi g ∧ fbRsi g ≤ 70 := by
  obtain ⟨hv0, hv1⟩ := hg 14
  obtain ⟨hr0, hr1⟩ := hg 21
  have hvu := pyUniform_mem (by norm_num : (10:ℚ) ≤ 35) hv0 hv1
  have hru := pyUniform_mem (by norm_num : (30:ℚ) ≤ 70) hr0 hr1
  have hvb := pyRound2_bounds 1000 3500 (by norm_num) (by norm_num)
    hvu.1 hvu.2
  have hrb := pyRound2_bounds 3000 7000 (by norm_num) (by norm_num)
    hru.1 hru.2
  refine ⟨rfl, rfl, rfl, hvb.1, hvb.2, rfl, rfl, hrb.1, hrb.2⟩

/-- Witness for C7 at the all-zero draw stream. -/
theorem c7_witness :
    fallbackFieldsComplete
        (completeFallbackIndexAnalysis "2024-01-01" "^NSEI" "topic" 3
          (fun _ => 0)) = true ∧
    (completeFallbackIndexAnalysis "2024-01-01" "^NSEI" "topic" 3
        (fun _ => 0)).lookup "risk_metrics" =
      some (.vdict (fbRiskMetricsFields (fun _ => 0))) ∧
    (Val.vdict (fbRiskMetricsFields (fun _ => 0))).lookup "volatility" =
      some (.q (fbVolatility (fun _ => 0))) ∧
    10 ≤ fbVolatility (fun _ => 0) ∧ fbVolatility (fun _ => 0) ≤ 35 ∧
    (completeFallbackIndexAnalysis "2024-01-01" "^NSEI" "topic" 3
        (fun _ => 0)).lookup "technical_indicators" =
      some (.vdict (fbTechnicalFields (fun _ => 0))) ∧
    (Val.vdict (fbTechnicalFields (fun _ => 0))).lookup "rsi" =
      some (.q (fbRsi (fun _ => 0))) ∧
    30 ≤ fbRsi (fun _ => 0) ∧ fbRsi (fun _ => 0) ≤ 70 :=
  c7_fallback_ranges_and_completeness "2024-01-01" "^NSEI" "topic" 3
    (fun _ => 0) (fun _ => ⟨le_refl 0, by norm_num⟩)

/-! ### C3: years extraction — capped above, not clamped below -/

/-- C3 counterexample: the topic `"gold last 0 years"` passes the finance
filter, matches the years regex with `N = 0`, and `_parse_topic` returns
`years = 0`, which lies below the claimed lower bound 1. -/
theorem c3_counterexample :
    Val.lookup (parseTopic "gold last 0 years") "years" =
      some (.q 0) ∧ ¬ (1 ≤ (0 : ℚ)) :=
  ⟨rfl, by norm_num⟩

/-- Helper: the `type` tag of a finance-valid parse is the first full block
guard that holds, in source order. -/
theorem parseTopic_type_guard (topic : String)
    (h : financeValid (pyLower topic) = true) :
    Val.lookup (parseTopic topic) "type" =
      some (.s (firstGuardTag (pyLower topic))) := by
  unfold parseTopic firstGuardTag
  simp only [h, Bool.not_true, Bool.false_eq_true, if_false]
  cases hm1 : findIndexMatch (pyLower topic) with
  | some kv => simp [hm1, Val.lookup, List.lookup]
  | none =>
      simp only [hm1, Option.isSome_none, Bool.false_eq_true, if_false]
      cases hm2 : findSectorMatch (pyLower topic) with
      | some sk => simp [hm2, Val.lookup, List.lookup]
      | none =>
          simp only [hm2, Option.isSome_none, Bool.false_eq_true, if_false]
          by_cases hsi : stockIndicatorHit (pyLower topic)
          · cases hm3 : findStockMatch (pyLower topic) with
            | some sm => simp [hsi, hm3, Val.lookup, List.lookup]
            | none =>
                simp only [hsi, hm3, if_true, Option.isSome_none,
                  Bool.and_false, Bool.false_eq_true, if_false]
                by_cases hck : commodityKeywordHit (pyLower topic)
                · cases hm4 : findCommodityMatch (pyLower topic) with
                  | some kv => simp [hck, hm4, Val.lookup, List.lookup]
                  | none =>
                      simp only [hck, hm4, if_true, Option.isSome_none,
                        Bool.and_false, Bool.false_eq_true, if_false]
                      cases hm5 : findThemeMatch (pyLower topic) with
                      | some tk => simp [hm5, Val.lookup, List.lookup]
                      | none => simp [hm5, Val.lookup, List.lookup]
                · simp only [hck, Bool.false_and, Bool.false_eq_true,
                    if_false]
                  cases hm5 : findThemeMatch (pyLower topic) with
                  | some tk => simp [hck, hm5, Val.lookup, List.lookup]
                  | none => simp [hck, hm5, Val.lookup, List.lookup]
          · simp only [hsi, Bool.false_and, Bool.false_eq_true, if_false]
            by_cases hck : commodityKeywordHit (pyLower topic)
            · cases hm4 : findCommodityMatch (pyLower topic) with
              | some kv => simp [hsi, hck, hm4, Val.lookup, List.lookup]
              | none =>
                  simp only [hsi, hck, hm4, if_true, Option.isSome_none,
                    Bool.and_false, Bool.false_eq_true, if_false]
                  cases hm5 : findThemeMatch (pyLower topic) with
                  | some tk => simp [hm5, Val.lookup, List.lookup]
                  | none => simp [hm5, Val.lookup, List.lookup]
            · simp only [hsi, hck, Bool.false_and, Bool.false_eq_true,
                if_false]
              cases hm5 : findThemeMatch (pyLower topic) with
              | some tk => simp [hck, hm5, Val.lookup, List.lookup]
              | none => simp [hck, hm5, Val.lookup, List.lookup]

/-- Helper: the guard chain only produces the six non-invalid tags. -/
theorem firstGuardTag_mem (tl : String) :
    firstGuardTag tl ∈
      ["index", "sector", "stock", "commodity", "theme", "general"] := by
  unfold firstGuardTag
  repeat' split
  all_goals simp

/-- C3 (amended): the years-lookback count is extracted by the regular
expression from phrases like `last N years`, defaults to 3 when no phrase
matches, and is capped above at 10 by `min(years, 10)`; it is **not**
clamped below at 1 (`last 0 years` yields 0).  Every finance-valid topic's
parse carries this value in its `years` field. -/
theorem c3_years_capped (topic : String) :
    parsedYears (pyLower topic) ≤ 10 ∧
    (searchYears (pyLower topic).toList = none →
      parsedYears (pyLower topic) = 3) ∧
    (financeValid (pyLower topic) = true →
      Val.lookup (parseTopic topic) "years" =
        some (.q (parsedYears (pyLower topic)))) := by
  refine ⟨Nat.min_le_right _ _, ?_, ?_⟩
  · intro h
    unfold parsedYears
    rw [h]
    decide
  · intro h
    unfold parseTopic
    simp only [h, Bool.not_true, Bool.false_eq_true, if_false]
    split
    · rfl
    · split
      · rfl
      · split
        · rfl
        · split
          · rfl
          · split
            · rfl
            · rfl

/-- Witness for C3 at `"stock market"` (no years phrase, finance-valid). -/
theorem c3_witness :
    searchYears (pyLower "stock market").toList = none ∧
    parsedYears (pyLower "stock market") = 3 ∧
    financeValid (pyLower "stock market") = true ∧
    Val.lookup (parseTopic "stock market") "years" =
      some (.q (parsedYears (pyLower "stock market"))) :=
  ⟨rfl, (c3_years_capped "stock market").2.1 rfl, rfl,
   (c3_years_capped "stock market").2.2 rfl⟩

/-! ### C4: the classifier's category set -/

/-- Helper: every parse result carries a `type` tag among the seven
categories. -/
theorem parseTopic_type_mem (topic : String) :
    ∃ t, Val.lookup (parseTopic topic) "type" = some (.s t) ∧
      t ∈ ["index", "sector", "stock", "commodity", "theme", "general",
           "invalid"] := by
  cases hf : financeValid (pyLower topic) with
  | true =>
      refine ⟨firstGuardTag (pyLower topic),
        parseTopic_type_guard topic hf, ?_⟩
      have h6 := firstGuardTag_mem (pyLower topic)
      simp only [List.mem_cons, List.mem_singleton] at h6 ⊢
      tauto
  | false =>
      refine ⟨"invalid", ?_, by simp⟩
      unfold parseTopic
      simp [hf, Val.lookup, List.lookup]

/-- C4: for every non-empty topic, the dict returned by `_parse_topic` has a
`type` field equal to one of exactly the seven enumerated categories. -/
theorem c4_classifier_categories (topic : String) (_h : topic ≠ "") :
    ∃ t, Val.lookup (parseTopic topic) "type" = some (.s t) ∧
      t ∈ ["index", "sector", "stock", "commodity", "theme", "general",
           "invalid"] :=
  parseTopic_type_mem topic

/-- Witness for C4 at `"gold market"`. -/
theorem c4_witness :
    "gold market" ≠ "" ∧
    ∃ t, Val.lookup (parseTopic "gold market") "type" = some (.s t) ∧
      t ∈ ["index", "sector", "stock", "commodity", "theme", "general",
           "invalid"] :=
  ⟨by decide, c4_classifier_categories "gold market" (by decide)⟩

/-! ### C5: priority order is over full block guards, not keyword lists -/

/-- C5 counterexample: `"crude green market"` matches the commodity keyword
list (`"crude"`) and the theme keyword list (`"green"`), yet `_parse_topic`
returns the **theme** category: the commodity block additionally requires a
specific commodity phrase (`gold`/`silver`/`crude oil`/`natural gas`/
`copper`), which is absent, so the earlier-listed category loses. -/
theorem c5_counterexample :
    commodityKeywordHit (pyLower "crude green market") = true ∧
    (findThemeMatch (pyLower "crude green market")).isSome = true ∧
    Val.lookup (parseTopic "crude green market") "type" =
      some (.s "theme") :=
  ⟨rfl, rfl, rfl⟩

/-- C5 (amended): for finance-valid input, `_parse_topic` returns the tag of
the first block whose **full guard** holds, in the fixed source order index
→ sector → stock (indicator word plus a known company symbol) → commodity
(keyword plus a specific commodity phrase) → theme, defaulting to general.
A topic matching only the keyword part of the stock or commodity block falls
through to later categories. -/
theorem c5_priority_order (topic : String)
    (h : financeValid (pyLower topic) = true) :
    Val.lookup (parseTopic topic) "type" =
      some (.s (firstGuardTag (pyLower topic))) :=
  parseTopic_type_guard topic h

/-- Witness for C5 at the finance-valid topic `"crude green market"`. -/
theorem c5_witness :
    financeValid (pyLower "crude green market") = true ∧
    Val.lookup (parseTopic "crude green market") "type" =
      some (.s (firstGuardTag (pyLower "crude green market"))) :=
  ⟨rfl, c5_priority_order "crude green market" rfl⟩

/-! ### C8: the retry policy of the price-history fetch -/

theorem indexAttempt_snd_eq (env : FetchEnv) (st : LiveStats)
    (topic : String) (a : ℕ) (sym : String) :
    (indexAttempt env st topic a sym).2 =
      (match env.hist1 a sym with
       | none => [NetEvent.histCall sym]
       | some 0 => [NetEvent.histCall sym, NetEvent.histCall sym]
       | some _ => [NetEvent.histCall sym]) := by
  unfold indexAttempt
  split <;>
    simp [apply_ite Prod.snd, buildLiveIndexAnalysis,
      callCalculateMaxDrawdown]

theorem indexAttempt_trace_mem (env : FetchEnv) (st : LiveStats)
    (topic : String) (a : ℕ) (sym : String) (e : NetEvent)
    (he : e ∈ (indexAttempt env st topic a sym).2) :
    e = .histCall sym := by
  rw [indexAttempt_snd_eq] at he
  cases hh : env.hist1 a sym with
  | none =>
      rw [hh] at he
      simpa using he
  | some n =>
      cases n with
      | zero =>
          rw [hh] at he
          simpa using he
      | succ m =>
          rw [hh] at he
          simpa using he

theorem indexAttempt_trace_len (env : FetchEnv) (st : LiveStats)
    (topic : String) (a : ℕ) (sym : String) :
    (indexAttempt env st topic a sym).2.length ≤ 2 := by
  rw [indexAttempt_snd_eq]
  cases hh : env.hist1 a sym with
  | none => simp
  | some n => cases n <;> simp

theorem indexSymbolLoop_trace_mem (env : FetchEnv) (st : LiveStats)
    (topic : String) (a : ℕ) (syms : List String) (e : NetEvent)
    (he : e ∈ (indexSymbolLoop env st topic a syms).2) :
    ∃ s, s ∈ syms ∧ e = .histCall s := by
  induction syms with
  | nil => simp [indexSymbolLoop] at he
  | cons s rest ih =>
      unfold indexSymbolLoop at he
      rcases hA : indexAttempt env st topic a s with ⟨f, t⟩
      have hf : f = none := by
        have h := indexAttempt_fst env st topic a s
        rw [hA] at h
        exact h
      subst hf
      rw [hA] at he
      simp only at he
      rcases List.mem_append.mp he with h | h
      · have := indexAttempt_trace_mem env st topic a s e (by rw [hA]; exact h)
        exact ⟨s, by simp, this⟩
      · obtain ⟨s', hs', he'⟩ := ih h
        exact ⟨s', by simp [hs'], he'⟩

theorem indexSymbolLoop_trace_len (env : FetchEnv) (st : LiveStats)
    (topic : String) (a : ℕ) (syms : List String) :
    (indexSymbolLoop env st topic a syms).2.length ≤ 2 * syms.length := by
  induction syms with
  | nil => simp [indexSymbolLoop]
  | cons s rest ih =>
      unfold indexSymbolLoop
      rcases hA : indexAttempt env st topic a s with ⟨f, t⟩
      have hf : f = none := by
        have h := indexAttempt_fst env st topic a s
        rw [hA] at h
        exact h
      subst hf
      have ht : t.length ≤ 2 := by
        have h := indexAttempt_trace_len env st topic a s
        rw [hA] at h
        exact h
      simp only [List.length_append, List.length_cons]
      omega

theorem analyzeIndex_trace (env : FetchEnv) (st : LiveStats)
    (today symbol topic : String) (years : ℕ) (g : ℕ → ℚ) :
    ∃ t0 t1 d,
      (analyzeIndex env st today symbol topic years g).2 =
        t0 ++ .sleep d :: t1 ∧
      d ≤ 2 ∧
      (∀ e ∈ t0, ∃ s, s ∈ (symbolsToTry symbol).take 2 ∧
        e = NetEvent.histCall s) ∧
      (∀ e ∈ t1, ∃ s, s ∈ (symbolsToTry symbol).take 2 ∧
        e = NetEvent.histCall s) ∧
      t0.length ≤ 4 ∧ t1.length ≤ 4 := by
  refine ⟨(indexSymbolLoop env st topic 0
      ((symbolsToTry symbol).take 2)).2,
    (indexSymbolLoop env st topic 1 ((symbolsToTry symbol).take 2)).2,
    min ((1/2) * 2 ^ (0 : ℕ) + pyUniform (g 0) 0 (1/2)) 2,
    ?_, min_le_right _ _, ?_, ?_, ?_, ?_⟩
  · simp only [analyzeIndex, indexRetryLoop_all_fail]
  · intro e he
    exact indexSymbolLoop_trace_mem env st topic 0 _ e he
  · intro e he
    exact indexSymbolLoop_trace_mem env st topic 1 _ e he
  · have h := indexSymbolLoop_trace_len env st topic 0
      ((symbolsToTry symbol).take 2)
    have hl : ((symbolsToTry symbol).take 2).length ≤ 2 :=
      List.length_take_le 2 (symbolsToTry symbol)
    omega
  · have h := indexSymbolLoop_trace_len env st topic 1
      ((symbolsToTry symbol).take 2)
    have hl : ((symbolsToTry symbol).take 2).length ≤ 2 :=
      List.length_take_le 2 (symbolsToTry symbol)
    omega

theorem singleFetchTrace_no_sleep (h1 h2 : Option ℕ) (sym : String) :
    (singleFetchTrace h1 h2 sym).countP isSleepEv = 0 := by
  unfold singleFetchTrace
  cases h1 with
  | none => rfl
  | some n => cases n <;> rfl

theorem flatMapFetch_no_sleep (h1 h2 : String → Option ℕ) :
    ∀ l : List String,
      ((l.flatMap fun s => singleFetchTrace (h1 s) (h2 s) s).countP
        isSleepEv) = 0
  | [] => rfl
  | s :: rest => by
      simp only [List.flatMap_cons, List.countP_append]
      rw [singleFetchTrace_no_sleep, flatMapFetch_no_sleep h1 h2 rest]

theorem analyzeIndex_sleep_count (env : FetchEnv) (st : LiveStats)
    (today symbol topic : String) (years : ℕ) (g : ℕ → ℚ) :
    (analyzeIndex env st today symbol topic years g).2.countP isSleepEv
      = 1 := by
  obtain ⟨t0, t1, d, htr, _hd, hm0, hm1, _, _⟩ :=
    analyzeIndex_trace env st today symbol topic years g
  rw [htr]
  have h0 : t0.countP isSleepEv = 0 := by
    apply List.countP_eq_zero.mpr
    intro e he
    obtain ⟨s, _, rfl⟩ := hm0 e he
    simp [isSleepEv]
  have h1 : t1.countP isSleepEv = 0 := by
    apply List.countP_eq_zero.mpr
    intro e he
    obtain ⟨s, _, rfl⟩ := hm1 e he
    simp [isSleepEv]
  simp [List.countP_append, List.countP_cons, h0, h1, isSleepEv]

/-- C8: the price-history fetch of `_analyze_index` is the only retried
network path: its trace holds exactly one backoff sleep (so at most the
fixed two attempt rounds), the sleep lasts at most 2 seconds, every history
request targets one of the first two candidate symbols, at most 8 history
requests are issued, and — the live branch being unreachable — the result
is the randomly fabricated fallback analysis rather than an exception.  The
sector, stock, commodity, theme and general-market fetch loops contain no
sleeps: their only sleep events are those of the nested `_analyze_index`
call inside the general-market path. -/
theorem c8_retry_policy (env : FetchEnv) (st : LiveStats)
    (today symbol topic : String) (years : ℕ) (g : ℕ → ℚ) :
    ((analyzeIndex env st today symbol topic years g).2.countP isSleepEv
        = 1) ∧
    ((analyzeIndex env st today symbol topic years g).2.all sleepDurOk
        = true) ∧
    ((histSyms (analyzeIndex env st today symbol topic years g).2).all
        (fun s => ((symbolsToTry symbol).take 2).contains s) = true) ∧
    (histSyms (analyzeIndex env st today symbol topic years g).2).length
        ≤ 8 ∧
    (analyzeIndex env st today symbol topic years g).1 =
      completeFallbackIndexAnalysis today symbol topic years
        (shiftDraws g 1) ∧
    (∀ h1 h2 stocks,
      (sectorFetchTrace h1 h2 stocks).countP isSleepEv = 0 ∧
      (themeFetchTrace h1 h2 stocks).countP isSleepEv = 0) ∧
    (∀ h1 h2 sym2,
      (stockFetchTrace h1 h2 sym2).countP isSleepEv = 0 ∧
      (commodityFetchTrace h1 h2 sym2).countP isSleepEv = 0) ∧
    (∀ h1 h2,
      (generalMarketFetchTrace env st today years g h1 h2).countP isSleepEv
        = 1) := by
  obtain ⟨t0, t1, d, htr, hd, hm0, hm1, hl0, hl1⟩ :=
    analyzeIndex_trace env st today symbol topic years g
  refine ⟨analyzeIndex_sleep_count env st today symbol topic years g,
    ?_, ?_, ?_,
    analyzeIndex_result_eq env st today symbol topic years g,
    ?_, ?_, ?_⟩
  · rw [htr]
    apply List.all_eq_true.mpr
    intro e he
    rcases List.mem_append.mp he with h | h
    · obtain ⟨s, _, rfl⟩ := hm0 e h
      rfl
    · rcases List.mem_cons.mp h with h' | h'
      · subst h'
        exact decide_eq_true hd
      · obtain ⟨s, _, rfl⟩ := hm1 e h'
        rfl
  · rw [htr]
    apply List.all_eq_true.mpr
    intro s' hs'
    obtain ⟨e, he, hse⟩ := List.mem_filterMap.mp hs'
    rcases List.mem_append.mp he with h | h
    · obtain ⟨s, hs, rfl⟩ := hm0 e h
      simp only [histSyms] at hse
      cases hse
      exact List.elem_eq_true_of_mem hs
    · rcases List.mem_cons.mp h with h' | h'
      · subst h'
        simp [histSyms] at hse
      · obtain ⟨s, hs, rfl⟩ := hm1 e h'
        simp only [histSyms] at hse
        cases hse
        exact List.elem_eq_true_of_mem hs
  · rw [htr]
    have : histSyms (t0 ++ .sleep d :: t1) = histSyms t0 ++ histSyms t1 := by
      simp [histSyms, List.filterMap_append, List.filterMap_cons]
    rw [this]
    have e0 := List.length_filterMap_le
      (fun e => match e with
        | NetEvent.histCall s => some s
        | NetEvent.sleep _ => none) t0
    have e1 := List.length_filterMap_le
      (fun e => match e with
        | NetEvent.histCall s => some s
        | NetEvent.sleep _ => none) t1
    simp only [histSyms, List.length_append]
    omega
  · intro h1 h2 stocks
    exact ⟨flatMapFetch_no_sleep h1 h2 (stocks.take 10),
      flatMapFetch_no_sleep h1 h2 (stocks.take 15)⟩
  · intro h1 h2 sym2
    exact ⟨singleFetchTrace_no_sleep (h1 sym2) (h2 sym2) sym2,
      singleFetchTrace_no_sleep (h1 sym2) (h2 sym2) sym2⟩
  · intro h1 h2
    unfold generalMarketFetchTrace
    rw [List.countP_append,
      analyzeIndex_sleep_count env st today "^NSEI" "Nifty 50" years g,
      flatMapFetch_no_sleep h1 h2 ["^GSPC", "^FTSE", "^N225", "^HSI"]]

/-! ### C9: totality of `get_comprehensive_analysis` -/

theorem dispatchAnalysis_ok (env : ServiceEnv) (topic : String)
    (years : ℕ) : ∃ v, dispatchAnalysis env topic years = .ok v := by
  unfold dispatchAnalysis
  cases hf : financeValid (pyLower topic) with
  | false =>
      refine ⟨analyzeGeneralMarket env topic years, ?_⟩
      simp [parseTopic, hf, getItem, Val.lookup, List.lookup, Val.isStr,
        Except.bind]
  | true =>
      simp only [parseTopic, hf, Bool.not_true, Bool.false_eq_true,
        if_false]
      cases hm1 : findIndexMatch (pyLower topic) with
      | some kv =>
          exact ⟨_, by
            simp [getItem, Val.lookup, List.lookup, Val.isStr,
              Val.asString, Except.bind]; rfl⟩
      | none =>
          cases hm2 : findSectorMatch (pyLower topic) with
          | some sk =>
              exact ⟨_, by
                simp [getItem, Val.lookup, List.lookup, Val.isStr,
                  Val.asString, Except.bind]; rfl⟩
          | none =>
              cases hm3 : (if stockIndicatorHit (pyLower topic) = true then
                  findStockMatch (pyLower topic) else none) with
              | some sm =>
                  exact ⟨_, by
                    simp [getItem, Val.lookup, List.lookup, Val.isStr,
                      Val.asString, Except.bind]; rfl⟩
              | none =>
                  cases hm4 : (if commodityKeywordHit (pyLower topic) = true
                      then findCommodityMatch (pyLower topic) else none) with
                  | some kv =>
                      exact ⟨_, by
                        simp [getItem, Val.lookup, List.lookup, Val.isStr,
                          Val.asString, Except.bind]; rfl⟩
                  | none =>
                      cases hm5 : findThemeMatch (pyLower topic) with
                      | some tk =>
                          exact ⟨_, by
                            simp [getItem, Val.lookup, List.lookup,
                              Val.isStr, Val.asString, Except.bind]; rfl⟩
                      | none =>
                          exact ⟨_, by
                            simp [getItem, Val.lookup, List.lookup,
                              Val.isStr, Val.asString, Except.bind]; rfl⟩

/-- C9 (amended): `get_comprehensive_analysis` is total — the dispatched
analysis always yields a value (each analyzer catches its own failures and
substitutes its category's fallback dict), the wrapper passes that value
through, and the wrapper's own `except` handler — reached only by failures
that escape the analyzers — would substitute the fallback general analysis,
whose `primary_market` is the fabricated index analysis. -/
theorem c9_total_no_exception (env : ServiceEnv) (topic : String)
    (years : ℕ) :
    (∃ v, dispatchAnalysis env topic years = .ok v ∧
      getComprehensiveAnalysis env topic years = v) ∧
    Val.lookup (fallbackGeneralAnalysis env.today topic years env.g)
        "primary_market" =
      some (completeFallbackIndexAnalysis env.today "^NSEI" "Nifty 50"
        years env.g) := by
  obtain ⟨v, hv⟩ := dispatchAnalysis_ok env topic years
  exact ⟨⟨v, hv, by simp [getComprehensiveAnalysis, hv]⟩, rfl⟩

/-- C9 counterexample: when the sector-analysis body fails on the
sector-classified topic `"banking market"`, the failure is replaced by the
**sector** fallback dict, not by the fallback general analysis that the
claim names. -/
theorem c9_counterexample :
    Val.lookup (getComprehensiveAnalysis failingSectorEnv "banking market"
        3) "analysis_type" = some (.s "Sector Analysis") ∧
    Val.lookup (fallbackGeneralAnalysis failingSectorEnv.today
        "banking market" 3 failingSectorEnv.g) "analysis_type" =
      some (.s "General Market Analysis") ∧
    getComprehensiveAnalysis failingSectorEnv "banking market" 3 ≠
      fallbackGeneralAnalysis failingSectorEnv.today "banking market" 3
        failingSectorEnv.g := by
  refine ⟨rfl, rfl, fun h => ?_⟩
  have h2 : some (Val.s "Sector Analysis") =
      some (Val.s "General Market Analysis") := by
    calc some (Val.s "Sector Analysis")
        = Val.lookup (getComprehensiveAnalysis failingSectorEnv
            "banking market" 3) "analysis_type" := rfl
      _ = Val.lookup (fallbackGeneralAnalysis failingSectorEnv.today
            "banking market" 3 failingSectorEnv.g) "analysis_type" := by
            rw [h]
      _ = some (Val.s "General Market Analysis") := rfl
  simp [Val.s.injEq] at h2

/-! ### C6: slide count and numbering -/

theorem templateTitles_length (ptype : String) :
    (templateTitles ptype).length = 9 := by
  unfold templateTitles financial_templates
  simp only [List.lookup]
  repeat' split
  all_goals first | rfl | simp_all

theorem enum_map_slide_number (l : List String) (F : ℕ × String → Slide)
    (hf : ∀ p, (F p).slide_number = p.1 + 1) :
    (l.enum.map F).map Slide.slide_number = List.range' 1 l.length := by
  rw [List.map_map]
  have h1 : (Slide.slide_number ∘ F) = fun p : ℕ × String => p.1 + 1 := by
    funext p
    exact hf p
  rw [h1]
  have h2 : (fun p : ℕ × String => p.1 + 1) =
      (fun i => i + 1) ∘ (Prod.fst : ℕ × String → ℕ) := rfl
  rw [h2, ← List.map_map, List.enum_map_fst, List.range'_eq_map_range]
  apply List.map_congr_left
  intro a _
  omega

/-- C6: for every topic and requested slide count `n`, the assembled
`slides` list has exactly `min n L` entries, where `L = 9` is the section
count of every built-in template (and of the default), with `slide_number`
fields numbered consecutively from 1. -/
theorem c6_slide_count (env : ContentEnv) (topic ptype audience : String)
    (n : ℕ) (rd : Bool) (provider : String) :
    (generatePresentationContent env topic ptype audience n rd
        provider).slides.length = min n 9 ∧
    ((generatePresentationContent env topic ptype audience n rd
        provider).slides.map Slide.slide_number) =
      List.range' 1 (min n 9) ∧
    (financial_templates.all fun p => p.2.length == 9) = true := by
  have hlen : ((templateTitles ptype).take n).length = min n 9 := by
    rw [List.length_take, templateTitles_length]
  refine ⟨?_, ?_, rfl⟩
  · unfold generatePresentationContent
    split
    · unfold fallbackContent
      simp [hlen]
    · simp [hlen]
  · unfold generatePresentationContent
    split
    · unfold fallbackContent
      rw [← hlen]
      exact enum_map_slide_number _ _ (fun p => rfl)
    · rw [← hlen]
      exact enum_map_slide_number _ _ (fun p => rfl)

/-! ### C2: bullet counts per slide -/

theorem padBullets_length (title : String) (bullets : List String) :
    4 ≤ (padBullets title bullets).length ∧
    (padBullets title bullets).length ≤ 6 := by
  unfold padBullets
  simp only [List.length_take, List.length_append, List.length_replicate]
  omega

theorem enhanceContent_length (content : List String) (title : String)
    (md : Val) :
    (enhanceContent content title md).length = content.length ∨
    (enhanceContent content title md).length = content.length + 1 := by
  unfold enhanceContent
  dsimp only
  split_ifs <;> try simp
  all_goals (repeat' split) <;> simp

theorem buildSlide_content_length (env : ContentEnv) (topic : String)
    (md : Val) (rd : Bool) (i : ℕ) (title : String) :
    4 ≤ (buildSlide env topic md rd i title).content.length ∧
    (buildSlide env topic md rd i title).content.length ≤ 7 := by
  have hp := padBullets_length title
    (env.serpBullets (topic ++ " " ++ title) title)
  unfold buildSlide
  simp only
  split
  · have he := enhanceContent_length
      (padBullets title (env.serpBullets (topic ++ " " ++ title) title))
      title md
    rcases he with h | h <;> rw [h] <;> omega
  · exact ⟨hp.1, le_trans hp.2 (by norm_num)⟩

theorem serpSlides_bullet_bounds (env : ContentEnv) (topic : String)
    (md : Val) (rd : Bool) (titles : List String) :
    ((titles.enum.map fun p => buildSlide env topic md rd p.1 p.2).all
      fun sl => decide (4 ≤ sl.content.length) &&
        decide (sl.content.length ≤ 7)) = true := by
  apply List.all_eq_true.mpr
  intro sl hsl
  obtain ⟨p, -, rfl⟩ := List.mem_map.mp hsl
  have hb := buildSlide_content_length env topic md rd p.1 p.2
  simp [hb.1, hb.2]

theorem fallbackContent_bullet_counts (topic ptype audience : String)
    (n : ℕ) :
    ((fallbackContent topic ptype audience n).slides.all
      fun sl => sl.content.length == 3) = true := by
  unfold fallbackContent
  apply List.all_eq_true.mpr
  intro sl hsl
  obtain ⟨p, -, rfl⟩ := List.mem_map.mp hsl
  rfl

/-- C2 (amended): on the SerpAPI path every assembled slide's bullet list
has between 4 and 7 entries — the search bullets are padded to at least 4
and truncated to at most 6, and the real-data enhancement can insert one
more entry past that cap; on the fallback content path (any other provider)
every slide has exactly 3 fixed bullets. -/
theorem c2_bullet_counts (env : ContentEnv) (topic ptype audience : String)
    (n : ℕ) (rd : Bool) (provider : String) :
    ((generatePresentationContent env topic ptype audience n rd
        provider).slides.all fun sl =>
      if provider == "SerpAPI" then
        decide (4 ≤ sl.content.length) && decide (sl.content.length ≤ 7)
      else sl.content.length == 3) = true := by
  by_cases hp : provider = "SerpAPI"
  · subst hp
    unfold generatePresentationContent
    rw [if_neg (by simp)]
    simp only [beq_self_eq_true, if_true]
    exact serpSlides_bullet_bounds env topic _ rd _
  · have hb : (provider == "SerpAPI") = false := by
      simp [hp]
    unfold generatePresentationContent
    rw [if_pos hp]
    simp only [hb, Bool.false_eq_true, if_false]
    exact fallbackContent_bullet_counts topic ptype audience n

/-- C2 counterexample: for a non-SerpAPI provider the fallback content path
produces slides whose bullet lists have exactly 3 entries, below the claimed
lower bound of 4. -/
theorem c2_counterexample :
    ((generatePresentationContent trivContentEnv "gold"
        "quarterly_analysis" "Investors" 1 false "AI").slides.map
      fun sl => sl.content.length) = [3] := rfl

/-! ### C10: deck shape of `create_presentation` -/

theorem strItems_ok (l : List Val)
    (h : (l.all fun x => match x with
      | Val.s _ => true | _ => false) = true) :
    ∃ ss : List String, strItems l = .ok ss := by
  induction l with
  | nil => exact ⟨[], rfl⟩
  | cons x rest ih =>
      simp only [List.all_cons, Bool.and_eq_true] at h
      obtain ⟨h1, h2⟩ := h
      obtain ⟨ss, hss⟩ := ih h2
      cases x with
      | s t => exact ⟨t :: ss, by simp [strItems, hss, Except.map]⟩
      | q xx => exact absurd h1 (by simp)
      | b bv => exact absurd h1 (by simp)
      | pynone => exact absurd h1 (by simp)
      | vlist l => exact absurd h1 (by simp)
      | vdict d => exact absurd h1 (by simp)

theorem dictGetStrList_ok (fields : List (String × Val)) (k : String)
    (h : (match fields.lookup k with
      | none => true
      | some (.vlist l) =>
          l.all fun x => match x with | Val.s _ => true | _ => false
      | some _ => false) = true) :
    ∃ ss, dictGetStrList (.vdict fields) k = .ok ss := by
  unfold dictGetStrList
  dsimp only
  cases hl : fields.lookup k with
  | none => exact ⟨[], rfl⟩
  | some v =>
      rw [hl] at h
      cases v with
      | vlist l => exact strItems_ok l h
      | s t => simp at h
      | q x => simp at h
      | b bv => simp at h
      | pynone => simp at h
      | vdict d => simp at h

theorem slidesListOf_ok (fields : List (String × Val))
    (h : wfContent (.vdict fields) = true) :
    ∃ sl, slidesListOf (.vdict fields) = .ok sl ∧
      sl.all wfSlideEntry = true := by
  unfold wfContent at h
  dsimp only at h
  simp only [Bool.and_eq_true] at h
  obtain ⟨⟨hT, hE⟩, hS⟩ := h
  unfold slidesListOf
  dsimp only
  cases hl : fields.lookup "slides" with
  | none => exact ⟨[], rfl, rfl⟩
  | some v =>
      rw [hl] at hS
      cases v with
      | vlist l => exact ⟨l, rfl, hS⟩
      | s t => simp at hS
      | q x => simp at hS
      | b bv => simp at hS
      | pynone => simp at hS
      | vdict d => simp at hS

theorem dictGetStr_ok (fields : List (String × Val)) (k d : String)
    (h : (match fields.lookup k with
      | none => true | some (.s _) => true | some _ => false) = true) :
    ∃ t, dictGetStr (.vdict fields) k d = .ok t := by
  unfold dictGetStr
  dsimp only
  cases hl : fields.lookup k with
  | none => exact ⟨d, rfl⟩
  | some v =>
      rw [hl] at h
      cases v with
      | s t => exact ⟨t, rfl⟩
      | q x => simp at h
      | b bv => simp at h
      | pynone => simp at h
      | vlist l => simp at h
      | vdict dd => simp at h

theorem createTitleSlide_ok (fields : List (String × Val))
    (colors : List (String × TVal))
    (hcm : colors.lookup "colorful_modern" = none)
    (hbg : ∃ c, colors.lookup "background_color" = some c)
    (hpc : ∃ c, colors.lookup "primary_color" = some c)
    (hsc : ∃ c, colors.lookup "secondary_color" = some c)
    (hwf : wfContent (.vdict fields) = true) :
    ∃ t, createTitleSlide (.vdict fields) colors =
      .ok (.titleSlide t) := by
  obtain ⟨cb, hb⟩ := hbg
  obtain ⟨cp, hp⟩ := hpc
  obtain ⟨cs, hs⟩ := hsc
  have hT : (match fields.lookup "presentation_title" with
      | none => true | some (.s _) => true | some _ => false) = true := by
    unfold wfContent at hwf
    dsimp only at hwf
    simp only [Bool.and_eq_true] at hwf
    exact hwf.1.1
  obtain ⟨t, ht⟩ := dictGetStr_ok fields "presentation_title"
    "Financial Analysis" hT
  refine ⟨t, ?_⟩
  simp [createTitleSlide, hcm, colorsLookup, hb, hp, hs, ht, Except.bind,
    Except.map]

theorem agendaItemsAux_ok (l : List Val) :
    ∀ i, l.all wfSlideEntry = true →
    ∃ items, agendaItemsAux i l = .ok items ∧ items.length = l.length := by
  induction l with
  | nil => exact fun i _ => ⟨[], rfl, rfl⟩
  | cons v rest ih =>
      intro i h
      simp only [List.all_cons, Bool.and_eq_true] at h
      obtain ⟨h1, h2⟩ := h
      have hv : ∃ s, agendaItem i v = .ok s := by
        cases v with
        | vdict f => exact ⟨_, rfl⟩
        | s t => simp [wfSlideEntry] at h1
        | q x => simp [wfSlideEntry] at h1
        | b bv => simp [wfSlideEntry] at h1
        | pynone => simp [wfSlideEntry] at h1
        | vlist ll => simp [wfSlideEntry] at h1
      obtain ⟨s, hs⟩ := hv
      obtain ⟨items, hi, hlen⟩ := ih (i + 1) h2
      exact ⟨s :: items,
        by simp [agendaItemsAux, hs, hi, Except.bind, Except.map],
        by simp [hlen]⟩

theorem createAgendaSlide_ok (fields : List (String × Val))
    (colors : List (String × TVal))
    (hbg : ∃ c, colors.lookup "background_color" = some c)
    (hpc : ∃ c, colors.lookup "primary_color" = some c)
    (htc : ∃ c, colors.lookup "text_color" = some c)
    (hwf : wfContent (.vdict fields) = true) :
    ∃ sl items, slidesListOf (.vdict fields) = .ok sl ∧
      createAgendaSlide (.vdict fields) colors =
        .ok (.agendaSlide items) ∧
      items.length = min 8 sl.length := by
  obtain ⟨cb, hb⟩ := hbg
  obtain ⟨cp, hp⟩ := hpc
  obtain ⟨ct, htcc⟩ := htc
  obtain ⟨sl, hsl, hslwf⟩ := slidesListOf_ok fields hwf
  have h8 : (sl.take 8).all wfSlideEntry = true := by
    apply List.all_eq_true.mpr
    intro e he
    exact List.all_eq_true.mp hslwf e (List.take_subset 8 sl he)
  obtain ⟨items, hit, hlen⟩ := agendaItemsAux_ok (sl.take 8) 0 h8
  have hE : (match fields.lookup "executive_summary" with
      | none => true | some (.s _) => true
      | some w => !w.truthy) = true := by
    unfold wfContent at hwf
    dsimp only at hwf
    simp only [Bool.and_eq_true] at hwf
    exact hwf.1.2
  have hEok : execSummaryBlock (.vdict fields) colors = .ok () := by
    unfold execSummaryBlock
    show (match fields.lookup "executive_summary" with
      | some v =>
          if v.truthy then
            match v with
            | Val.s _ =>
                (colorsLookup colors "primary_color").bind fun _ =>
                (colorsLookup colors "text_color").map fun _ => ()
            | _ => Except.error PyErr.typeError
          else Except.ok ()
      | none => Except.ok ()) = .ok ()
    cases hl : fields.lookup "executive_summary" with
    | none => rfl
    | some v =>
        rw [hl] at hE
        cases v with
        | s t =>
            by_cases htr : (Val.s t).truthy = true
            · simp [htr, colorsLookup, hp, htcc, Except.bind, Except.map]
            · simp [htr]
        | q x => simp only [Bool.not_eq_true'] at hE; simp [hE]
        | b bv => simp only [Bool.not_eq_true'] at hE; simp [hE]
        | pynone => simp [Val.truthy]
        | vlist ll => simp only [Bool.not_eq_true'] at hE; simp [hE]
        | vdict dd => simp only [Bool.not_eq_true'] at hE; simp [hE]
  refine ⟨sl, items, hsl, ?_, by rw [hlen, List.length_take]⟩
  by_cases hi0 : items.isEmpty
  · simp [createAgendaSlide, colorsLookup, hb, hp, hsl, hit, hi0, hEok,
      Except.bind, Except.map]
  · simp [createAgendaSlide, colorsLookup, hb, hp, htcc, hsl, hit, hi0,
      hEok, Except.bind, Except.map]

theorem visualBlock_ok (f : List (String × Val))
    (h : (match f.lookup "visual_suggestion" with
      | none => true
      | some (.vdict _) => true
      | some w => !w.truthy) = true) :
    ∃ v, visualBlock (.vdict f) = .ok v := by
  unfold visualBlock dictGet
  dsimp only
  cases hl : f.lookup "visual_suggestion" with
  | none => exact ⟨.pynone, by simp [Val.truthy, Except.bind]⟩
  | some v =>
      rw [hl] at h
      cases v with
      | vdict dd =>
          by_cases htr : (Val.vdict dd).truthy = true
          · exact ⟨(dd.lookup "image_url").getD Val.pynone,
              by simp [htr, Except.bind]⟩
          · exact ⟨.pynone, by simp [htr, Except.bind]⟩
      | s t => simp only [Bool.not_eq_true'] at h
               exact ⟨.pynone, by simp [h, Except.bind]⟩
      | q x => simp only [Bool.not_eq_true'] at h
               exact ⟨.pynone, by simp [h, Except.bind]⟩
      | b bv => simp only [Bool.not_eq_true'] at h
                exact ⟨.pynone, by simp [h, Except.bind]⟩
      | pynone => exact ⟨.pynone, by simp [Val.truthy, Except.bind]⟩
      | vlist ll => simp only [Bool.not_eq_true'] at h
                    exact ⟨.pynone, by simp [h, Except.bind]⟩

theorem createContentSlide_ok (v : Val) (colors : List (String × TVal))
    (hbg : ∃ c, colors.lookup "background_color" = some c)
    (hpc : ∃ c, colors.lookup "primary_color" = some c)
    (htc : ∃ c, colors.lookup "text_color" = some c)
    (hv : wfSlideEntry v = true) :
    ∃ t, createContentSlide v colors = .ok (.contentSlide t) := by
  obtain ⟨cb, hb⟩ := hbg
  obtain ⟨cp, hp⟩ := hpc
  obtain ⟨ct, htcc⟩ := htc
  cases v with
  | vdict f =>
      unfold wfSlideEntry at hv
      dsimp only at hv
      simp only [Bool.and_eq_true] at hv
      obtain ⟨⟨⟨hT, hC⟩, hD⟩, hV⟩ := hv
      obtain ⟨t, ht⟩ := dictGetStr_ok f "title" "Content Slide" hT
      obtain ⟨items, hitems⟩ := dictGetStrList_ok f "content" hC
      obtain ⟨dps, hdps⟩ := dictGetStrList_ok f "data_points" hD
      obtain ⟨vv, hvv⟩ := visualBlock_ok f hV
      refine ⟨t, ?_⟩
      by_cases hi0 : items.isEmpty <;> by_cases hd0 : dps.isEmpty <;>
        simp [createContentSlide, colorsLookup, hb, hp, htcc, ht, hitems,
          hdps, hvv, hi0, hd0, Except.bind, Except.map]
  | s t => simp [wfSlideEntry] at hv
  | q x => simp [wfSlideEntry] at hv
  | b bv => simp [wfSlideEntry] at hv
  | pynone => simp [wfSlideEntry] at hv
  | vlist l => simp [wfSlideEntry] at hv

theorem contentSlidesLoop_ok (colors : List (String × TVal))
    (hbg : ∃ c, colors.lookup "background_color" = some c)
    (hpc : ∃ c, colors.lookup "primary_color" = some c)
    (htc : ∃ c, colors.lookup "text_color" = some c) :
    ∀ sl : List Val, sl.all wfSlideEntry = true →
    ∃ cs, contentSlidesLoop colors sl = .ok cs ∧
      cs.map BuiltSlide.kind = sl.map (fun _ => SlideKind.content) := by
  intro sl
  induction sl with
  | nil => exact fun _ => ⟨[], rfl, rfl⟩
  | cons v rest ih =>
      intro h
      simp only [List.all_cons, Bool.and_eq_true] at h
      obtain ⟨h1, h2⟩ := h
      obtain ⟨t, ht⟩ := createContentSlide_ok v colors hbg hpc htc h1
      obtain ⟨cs, hcs, hk⟩ := ih h2
      exact ⟨.contentSlide t :: cs,
        by simp [contentSlidesLoop, ht, hcs, Except.bind, Except.map],
        by simp [BuiltSlide.kind, hk]⟩

theorem createPresentation_shape (template : String)
    (colors : List (String × TVal)) (content : Val)
    (hlkp : pptTemplates.lookup template = some colors)
    (hcm : colors.lookup "colorful_modern" = none)
    (hbg : ∃ c, colors.lookup "background_color" = some c)
    (hpc : ∃ c, colors.lookup "primary_color" = some c)
    (hsc : ∃ c, colors.lookup "secondary_color" = some c)
    (htc : ∃ c, colors.lookup "text_color" = some c)
    (hwf : wfContent content = true) :
    ∃ sl deck items,
      slidesListOf content = .ok sl ∧
      createPresentation template content = .ok deck ∧
      deck.map BuiltSlide.kind =
        SlideKind.title :: SlideKind.agenda ::
          sl.map (fun _ => SlideKind.content) ∧
      deck.length = 2 + sl.length ∧
      deck.get? 1 = some (.agendaSlide items) ∧
      items.length = min 8 sl.length ∧
      (deck.all fun b => !(b.kind == SlideKind.summary) &&
        !(b.kind == SlideKind.appendix)) = true := by
  cases content with
  | vdict fields =>
      obtain ⟨t, hts⟩ := createTitleSlide_ok fields colors hcm hbg hpc hsc
        hwf
      obtain ⟨sl0, hsl0, hwfsl⟩ := slidesListOf_ok fields hwf
      obtain ⟨sl, items, hsl, hag, hil⟩ := createAgendaSlide_ok fields
        colors hbg hpc htc hwf
      have hsleq : sl = sl0 := by
        rw [hsl0] at hsl
        exact (Except.ok.inj hsl).symm
      subst hsleq
      obtain ⟨cs, hcs, hk⟩ := contentSlidesLoop_ok colors hbg hpc htc sl
        hwfsl
      have hcslen : cs.length = sl.length := by
        have := congrArg List.length hk
        simpa using this
      refine ⟨sl, .titleSlide t :: .agendaSlide items :: cs, items,
        hsl, ?_, ?_, ?_, rfl, hil, ?_⟩
      · simp [createPresentation, hlkp, hts, hag, hsl, hcs, Except.bind,
          Except.map]
      · simp [BuiltSlide.kind, hk]
      · simp [hcslen]
        omega
      · apply List.all_eq_true.mpr
        intro b hb
        rcases List.mem_cons.mp hb with rfl | hb'
        · rfl
        · rcases List.mem_cons.mp hb' with rfl | hb''
          · rfl
          · have hmem : b.kind ∈ cs.map BuiltSlide.kind :=
              List.mem_map_of_mem BuiltSlide.kind hb''
            rw [hk] at hmem
            obtain ⟨a, _, hak⟩ := List.mem_map.mp hmem
            rw [← hak]
            rfl
  | s t => simp [wfContent] at hwf
  | q x => simp [wfContent] at hwf
  | b bv => simp [wfContent] at hwf
  | pynone => simp [wfContent] at hwf
  | vlist l => simp [wfContent] at hwf

/-- C10 (amended): for every well-formed content dict and every template
whose palette carries the standard color keys — the five built-ins other
than `colorful_modern` — `create_presentation` produces exactly
`2 + len(content["slides"])` slides: a title slide, then an agenda slide
listing at most the first 8 content-slide titles, then one content slide
per entry; the summary and appendix builders are never invoked, so no deck
contains a summary or appendix slide.  (For `colorful_modern` the title
builder raises `KeyError`: see the counterexample.) -/
theorem c10_deck_shape (template : String) (content : Val)
    (htpl : template ∈ standardTemplates)
    (hwf : wfContent content = true) :
    ∃ sl deck items,
      slidesListOf content = .ok sl ∧
      createPresentation template content = .ok deck ∧
      deck.map BuiltSlide.kind =
        SlideKind.title :: SlideKind.agenda ::
          sl.map (fun _ => SlideKind.content) ∧
      deck.length = 2 + sl.length ∧
      deck.get? 1 = some (.agendaSlide items) ∧
      items.length = min 8 sl.length ∧
      (deck.all fun b => !(b.kind == SlideKind.summary) &&
        !(b.kind == SlideKind.appendix)) = true := by
  have h5 : template = "corporate_blue" ∨ template = "financial_green" ∨
      template = "modern_orange" ∨ template = "modern_white" ∨
      template = "executive_dark" := by
    simpa [standardTemplates] using htpl
  rcases h5 with rfl | rfl | rfl | rfl | rfl <;>
    exact createPresentation_shape _ _ content rfl rfl ⟨_, rfl⟩ ⟨_, rfl⟩
      ⟨_, rfl⟩ ⟨_, rfl⟩ hwf

/-- Witness for C10 at `corporate_blue` with a one-slide content dict. -/
theorem c10_witness :
    "corporate_blue" ∈ standardTemplates ∧
    wfContent (.vdict [("slides", .vlist [.vdict [("title", .s "A")]])]) =
      true ∧
    ∃ sl deck items,
      slidesListOf (.vdict [("slides", .vlist [.vdict [("title", .s "A")]])])
        = .ok sl ∧
      createPresentation "corporate_blue"
          (.vdict [("slides", .vlist [.vdict [("title", .s "A")]])]) =
        .ok deck ∧
      deck.map BuiltSlide.kind =
        SlideKind.title :: SlideKind.agenda ::
          sl.map (fun _ => SlideKind.content) ∧
      deck.length = 2 + sl.length ∧
      deck.get? 1 = some (.agendaSlide items) ∧
      items.length = min 8 sl.length ∧
      (deck.all fun b => !(b.kind == SlideKind.summary) &&
        !(b.kind == SlideKind.appendix)) = true :=
  ⟨by simp [standardTemplates], rfl,
   c10_deck_shape "corporate_blue"
     (.vdict [("slides", .vlist [.vdict [("title", .s "A")]])])
     (by simp [standardTemplates]) rfl⟩

/-- C10 counterexample: for the built-in template `colorful_modern` the
title-slide builder tests `"colorful_modern" in colors` against the
palette's own keys — never true — and then reads `colors["primary_color"]`,
which that palette lacks, so `create_presentation` raises `KeyError` and no
deck is produced at all. -/
theorem c10_counterexample :
    createPresentation "colorful_modern" (.vdict []) =
      .error .keyError := rfl
